import Mathlib

set_option maxHeartbeats 1000000
set_option autoImplicit false

/- A verification development for mypy's `mypy/meet.py`: the type-lattice core
computing the meet of two types (`meet_types`), the overlap predicate
(`is_overlapping_types`) and declared-type narrowing (`narrow_declared_type`),
together with the specialized typed-dict / mapping / tuple overlap rules.

The type representation (`mypy/types.py`) and the external collaborators
(`mypy.subtypes`, `mypy.join`, `mypy.maptype`, `mypy.typeops`) are modelled;
everything in `meet.py` itself is transcribed directly from the source.
Python `assert` failures, `NotImplementedError` and other raised exceptions
are modelled as `Except.error`; the process-wide `state.strict_optional`
flag is threaded explicitly as a boolean parameter `so`.  Recursion of the
Python functions is made total with an explicit fuel parameter; fuel
exhaustion is an `Except.error` distinct from any result the Python code
can produce. -/

/-- Nominal class identities used by `Instance` types in the model: a small
fixed class table standing in for mypy's `TypeInfo` graph.  `objectC` is
`builtins.object`, `functionC` is `builtins.function`, `typeC` is
`builtins.type`, `tupleC` is `builtins.tuple`, `mappingC` is
`typing.Mapping`, `dictC` is `builtins.dict`, `tdfbC` is the synthesized
fallback class of typed dicts (`typing._TypedDict`, which inherits
`Mapping[str, object]`), `genB`/`genC` are a generic class and a subclass
(`class genC(genB[T])`), and `metaM` is a metaclass deriving `type`. -/
inductive ClassId where
  | objectC | intC | strC | boolC | functionC | typeC | tupleC
  | mappingC | dictC | tdfbC | genB | genC | metaM
  deriving DecidableEq, Repr, Fintype

/-- The mypy type representation (`mypy/types.py`), as a closed sum.
`tupleT` carries its fallback instance, `callable` carries its fallback
class plus the boolean attributes read by `meet.py` (`is_type_obj()`,
`type_object().is_abstract`, `from_type_type`, whether it has a `name`,
`is_generic()`), `literal` carries its value and fallback class, and
`typeGuard` is mypy's `TypeGuardedType` wrapper. -/
inductive MType where
  | anyT
  | noneT
  | uninhabited
  | unboundT
  | erasedT
  | deletedT
  | union (items : List MType)
  | inst (cls : ClassId) (args : List MType)
  | tupleT (items : List MType) (fb : MType)
  | typedDict (items : List (String × MType)) (required : List String)
  | callable (argTypes : List MType) (retType : MType) (fbCls : ClassId)
      (isTypeObj : Bool) (isAbstract : Bool) (fromTypeType : Bool)
      (hasName : Bool) (isGenericC : Bool)
  | overloaded (items : List MType)
  | typeVar (tvId : Nat) (values : List MType) (upperBound : MType)
  | literal (val : Nat) (fbCls : ClassId)
  | typeT (item : MType)
  | typeGuard (inner : MType)
  | partialT

mutual

/-- Structural equality on the type AST, mypy's `__eq__` on type nodes. -/
def mteq : MType → MType → Bool
  | .anyT, .anyT => true
  | .noneT, .noneT => true
  | .uninhabited, .uninhabited => true
  | .unboundT, .unboundT => true
  | .erasedT, .erasedT => true
  | .deletedT, .deletedT => true
  | .union a, .union b => mteqList a b
  | .inst c ca, .inst d da => decide (c = d) && mteqList ca da
  | .tupleT a af, .tupleT b bf => mteqList a b && mteq af bf
  | .typedDict ia ra, .typedDict ib rb => mteqItems ia ib && decide (ra = rb)
  | .callable a1 r1 f1 o1 b1 t1 n1 g1, .callable a2 r2 f2 o2 b2 t2 n2 g2 =>
      mteqList a1 a2 && mteq r1 r2 && decide (f1 = f2) && decide (o1 = o2) &&
        decide (b1 = b2) && decide (t1 = t2) && decide (n1 = n2) && decide (g1 = g2)
  | .overloaded a, .overloaded b => mteqList a b
  | .typeVar i1 v1 u1, .typeVar i2 v2 u2 =>
      decide (i1 = i2) && mteqList v1 v2 && mteq u1 u2
  | .literal v1 f1, .literal v2 f2 => decide (v1 = v2) && decide (f1 = f2)
  | .typeT a, .typeT b => mteq a b
  | .typeGuard a, .typeGuard b => mteq a b
  | .partialT, .partialT => true
  | _, _ => false

/-- Itemwise structural equality of type lists. -/
def mteqList : List MType → List MType → Bool
  | [], [] => true
  | a :: as, b :: bs => mteq a b && mteqList as bs
  | _, _ => false

/-- Itemwise structural equality of typed-dict item lists. -/
def mteqItems : List (String × MType) → List (String × MType) → Bool
  | [], [] => true
  | (k1, v1) :: as, (k2, v2) :: bs => decide (k1 = k2) && mteq v1 v2 && mteqItems as bs
  | _, _ => false

end


/-- Method resolution order of each class in the model's class table
(`TypeInfo.mro`); every mro starts with the class itself and ends with
`object`. -/
def classMro : ClassId → List ClassId
  | .objectC => [.objectC]
  | .intC => [.intC, .objectC]
  | .strC => [.strC, .objectC]
  | .boolC => [.boolC, .intC, .objectC]
  | .functionC => [.functionC, .objectC]
  | .typeC => [.typeC, .objectC]
  | .tupleC => [.tupleC, .objectC]
  | .mappingC => [.mappingC, .objectC]
  | .dictC => [.dictC, .mappingC, .objectC]
  | .tdfbC => [.tdfbC, .mappingC, .objectC]
  | .genB => [.genB, .objectC]
  | .genC => [.genC, .genB, .objectC]
  | .metaM => [.metaM, .typeC, .objectC]

/-- `TypeInfo.has_base(fullname)`: class `d` appears in the mro of `c`. -/
def hasBase (c d : ClassId) : Bool := (classMro c).contains d

/-- Declared base classes of each class with their type arguments, as far as
the model needs them (`TypeInfo.bases`).  Only the typed-dict fallback class
is ever inspected this way by `meet.py` (`fallback.type.bases[0].args[0]`). -/
def classBasesWithArgs : ClassId → List (ClassId × List MType)
  | .tdfbC => [(.mappingC, [.inst .strC [], .inst .objectC []])]
  | .dictC => [(.mappingC, [])]
  | _ => []

/-- Modelled from the spec: `map_instance_to_supertype` (`mypy.maptype`, not
under src/) maps an instance's type arguments into an ancestor's parameter
frame; with the same class it is the identity.  The concrete table mirrors
the generic inheritance declared in `classMro`. -/
def mapInstanceToSupertype (c : ClassId) (args : List MType) (d : ClassId) :
    List MType :=
  if c = d then args
  else
    match c, d with
    | .dictC, .mappingC => args
    | .tdfbC, .mappingC => [.inst .strC [], .inst .objectC []]
    | .genC, .genB => args
    | _, _ => []

/-- Whether a class is a protocol (`TypeInfo.is_protocol`); the model's class
table declares none. -/
def isProtocolC (_c : ClassId) : Bool := false

/-- Whether a class is a metaclass (`TypeInfo.is_metaclass()`, i.e. it has
`builtins.type` in its mro). -/
def isMetaclassC (c : ClassId) : Bool := hasBase c .typeC

/-- Declared metaclass of a class (`TypeInfo.metaclass_type`); the model's
class table declares none. -/
def metaclassOf (_c : ClassId) : Option MType := none

/-- Shape testers used by the `isinstance` dispatch in `meet.py`. -/
def isTypeGuardT : MType → Bool
  | .typeGuard _ => true
  | _ => false

def isPartialTypeT : MType → Bool
  | .partialT => true
  | _ => false

/-- The "illegal" transient markers treated permissively by
`is_overlapping_types`: `UnboundType`, `ErasedType`, `DeletedType`. -/
def isIllegalT : MType → Bool
  | .unboundT => true
  | .erasedT => true
  | .deletedT => true
  | _ => false

def isAnyTT : MType → Bool
  | .anyT => true
  | _ => false

def isUnionT : MType → Bool
  | .union _ => true
  | _ => false

def isTypeVarT : MType → Bool
  | .typeVar _ _ _ => true
  | _ => false

def isNoneTT : MType → Bool
  | .noneT => true
  | _ => false

def isTypedDictT : MType → Bool
  | .typedDict _ _ => true
  | _ => false

def isTupleTT : MType → Bool
  | .tupleT _ _ => true
  | _ => false

/-- `is_tuple`: a `TupleType` or an instance of `builtins.tuple`. -/
def isTupleLike : MType → Bool
  | .tupleT _ _ => true
  | .inst .tupleC _ => true
  | _ => false

def isTypeTT : MType → Bool
  | .typeT _ => true
  | _ => false

def isCallableT : MType → Bool
  | .callable _ _ _ _ _ _ _ _ => true
  | _ => false

def isLiteralT : MType → Bool
  | .literal _ _ => true
  | _ => false

def isInstT : MType → Bool
  | .inst _ _ => true
  | _ => false

/-- An instance of `builtins.object` (any staleness of arguments), the shape
tested by `visit_none_type` via `self.s.type.fullname == 'builtins.object'`. -/
def isObjectInstance : MType → Bool
  | .inst .objectC _ => true
  | _ => false

/-- A tag distinguishing the Python runtime class of a type node
(`type(left) != type(right)` in the final assertion of
`is_overlapping_types`). -/
def kindTag : MType → Nat
  | .anyT => 0
  | .noneT => 1
  | .uninhabited => 2
  | .unboundT => 3
  | .erasedT => 4
  | .deletedT => 5
  | .union _ => 6
  | .inst _ _ => 7
  | .tupleT _ _ => 8
  | .typedDict _ _ => 9
  | .callable _ _ _ _ _ _ _ _ => 10
  | .overloaded _ => 11
  | .typeVar _ _ _ => 12
  | .literal _ _ => 13
  | .typeT _ => 14
  | .typeGuard _ => 15
  | .partialT => 16

/-- Modelled from the spec: the subtype predicate `is_proper_subtype`
(`mypy.subtypes`, not under src/).  The spec treats subtyping as an external
collaborator whose fast path in the overlap engine "subsumes identical
types, bottom types, and None-value handling": the model is reflexive,
makes `Uninhabited` a subtype of everything, gives `None` its
strict-optional behavior (under strict mode `None` is only a subtype of
itself and of `builtins.object`; outside strict mode of everything), lets a
type variable stand for its upper bound, sends a literal to its fallback
instance, and compares instances nominally through the class table.  The
model's promotion table is empty, so `ignorePromotions` is inert. -/
def isProperSubtype (so : Bool) (_ignorePromotions : Bool) (l r : MType) : Bool :=
  if mteq l r then true
  else
    match l, r with
    | .uninhabited, _ => true
    | .noneT, t => if so then isObjectInstance t else true
    | .typeVar _ _ ub, t => mteq ub t || mteq t (.inst .objectC [])
    | .literal _ fb, .inst d dargs =>
        hasBase fb d && mteqList (mapInstanceToSupertype fb [] d) dargs
    | .inst c cargs, .inst d dargs =>
        hasBase c d && mteqList (mapInstanceToSupertype c cargs d) dargs
    | _, _ => false

/-- Modelled from the spec: `is_subtype` (`mypy.subtypes`, not under src/).
Like `isProperSubtype` but `Any` is compatible in both directions. -/
def isSubtype (so ignorePromotions : Bool) (l r : MType) : Bool :=
  isAnyTT l || isAnyTT r || isProperSubtype so ignorePromotions l r

/-- `is_equivalent` (`mypy.subtypes`): mutual subtyping. -/
def isEquivalent (so : Bool) (l r : MType) : Bool :=
  isSubtype so false l r && isSubtype so false r l

/-- Modelled from the spec: `join_types` (`mypy.join`, not under src/), the
least-upper-bound collaborator, "needed only as a sub-routine for
contravariant argument combination".  The model returns the more general
operand when comparable and degrades to `builtins.object` otherwise. -/
def joinTypes (so : Bool) (a b : MType) : MType :=
  if isSubtype so false a b then b
  else if isSubtype so false b a then a
  else .inst .objectC []

/-- `UnionType.make_union`: no item gives the bottom type, a single item is
returned as-is, several items make a union. -/
def makeUnion : List MType → MType
  | [] => .uninhabited
  | [x] => x
  | xs => .union xs

/-- First-occurrence deduplication of a type list, by structural equality. -/
def dedupAux (seen : List MType) : List MType → List MType
  | [] => []
  | a :: as =>
      if seen.any (mteq a) then dedupAux seen as
      else a :: dedupAux (a :: seen) as

/-- Modelled from the spec: `make_simplified_union` (`mypy.typeops`, not
under src/), the union simplification collaborator ("deduplicated,
flattened").  The model deduplicates and collapses degenerate unions. -/
def makeSimplifiedUnion (items : List MType) : MType :=
  makeUnion (dedupAux [] items)

/-- `UnionType.relevant_items`: all items under strict-optional mode, the
non-`None` items otherwise. -/
def relevantItems (so : Bool) (items : List MType) : List MType :=
  if so then items else items.filter (fun x => !(isNoneTT x))

/-- `tuple_fallback` (`mypy.typeops`): the fallback instance of a tuple type;
in the model each `tupleT` node stores its fallback. -/
def tupleFallback : MType → MType
  | .tupleT _ fb => fb
  | t => t

/-- The fallback instance of a `TypedDictType` (`typed.fallback` and
`typed.as_anonymous().fallback`): an instance of the synthesized typed-dict
fallback class. -/
def tdFallbackInstance : MType := .inst .tdfbC []

/-- The `str` key type extracted by `typed_dict_mapping_overlap` as
`fallback.type.bases[0].args[0]` (typing._TypedDict inherits
`Mapping[str, object]`). -/
def tdStrType : MType :=
  match classBasesWithArgs .tdfbC with
  | (_, a :: _) :: _ => a
  | _ => .anyT

/-- The fallback instance of a `CallableType` (`builtins.function` or
`builtins.type` in mypy); the model stores the class and the instance has
no arguments. -/
def callableFallback (fb : ClassId) : MType := .inst fb []

/-- `FunctionLike.items`: a plain callable is its own single item, an
overloaded type lists its alternatives. -/
def funcItems : MType → List MType
  | .callable a r fb tb ab ft nm g => [.callable a r fb tb ab ft nm g]
  | .overloaded items => items
  | _ => []

/-- The fallback of a `FunctionLike`: for an overload, the fallback of its
first item (`Overloaded.fallback`). -/
def funcFallback : MType → MType
  | .callable _ _ fb _ _ _ _ _ => callableFallback fb
  | .overloaded (first :: _) => funcFallback first
  | _ => .anyT

/-- `FunctionLike.is_type_obj()`: for an overload, whether its first item is
a type object. -/
def funcIsTypeObj : MType → Bool
  | .callable _ _ _ tb _ _ _ _ => tb
  | .overloaded (first :: _) => funcIsTypeObj first
  | _ => false

/-- A `FunctionLike` type: a callable or an overload. -/
def isFunctionLike : MType → Bool
  | .callable _ _ _ _ _ _ _ _ => true
  | .overloaded _ => true
  | _ => false

/-- Association-list lookup for typed-dict items (`typed.items[key]`). -/
def lookupTD (items : List (String × MType)) (k : String) : Option MType :=
  match items.find? (fun p => p.1 == k) with
  | some p => some p.2
  | none => none

/-- The non-required keys of a typed dict,
`set(typed.items.keys()) - typed.required_keys`, in item order. -/
def nonRequiredKeys (items : List (String × MType)) (req : List String) :
    List String :=
  (items.map (fun p => p.1)).filter (fun k => !(req.contains k))

/-- Short-circuiting existential over checks that may raise: Python
`for ...: if check(x): return True` / `return False`, exceptions
propagating. -/
def anyM {α : Type} (f : α → Except String Bool) : List α → Except String Bool
  | [] => .ok false
  | a :: as =>
      match f a with
      | .error e => .error e
      | .ok true => .ok true
      | .ok false => anyM f as

/-- Short-circuiting universal over checks that may raise: Python
`for ...: if not check(x): return False` / `return True`, exceptions
propagating. -/
def allM {α : Type} (f : α → Except String Bool) : List α → Except String Bool
  | [] => .ok true
  | a :: as =>
      match f a with
      | .error e => .error e
      | .ok false => .ok false
      | .ok true => allM f as

/-- Short-circuiting disjunction of two checks that may raise. -/
def orE (x y : Except String Bool) : Except String Bool :=
  match x with
  | .error e => .error e
  | .ok true => .ok true
  | .ok false => y

/-- The cross product of two lists in the nested-loop order of
`for l in left_possible: for r in right_possible: ...`. -/
def pairProd {α β : Type} (l : List α) (r : List β) : List (α × β) :=
  l.flatMap (fun a => r.map (fun b => (a, b)))

/-- Monadic map collecting results, exceptions propagating. -/
def mapeM {α β : Type} (f : α → Except String β) : List α → Except String (List β)
  | [] => .ok []
  | a :: as =>
      match f a with
      | .error e => .error e
      | .ok b =>
          match mapeM f as with
          | .error e => .error e
          | .ok bs => .ok (b :: bs)

/-- `is_none_typevar_overlap` (nested in `is_overlapping_types`): the first
operand is the `None` type and the second a type variable. -/
def isNoneTypevarOverlap (t1 t2 : MType) : Bool := isNoneTT t1 && isTypeVarT t2

/-- The non-strict-optional simplification of a union operand performed by
`is_overlapping_types`: `UnionType.make_union(left.relevant_items())`. -/
def stripNoneFromUnion : MType → MType
  | .union items => makeUnion (relevantItems false items)
  | t => t

/-- `get_possible_variants`: decompose any union-like type (union,
value-restricted type variable, overload) into its alternatives; a plain
type variable stands for its upper bound; anything else is a singleton. -/
def getPossibleVariants : MType → List MType
  | .typeVar _ values ub => if values.length > 0 then values else [ub]
  | .union items => items
  | .overloaded items => items
  | t => [t]

/-- The body of the first loop of `are_typed_dicts_overlapping` at one
required key of the left typed dict: `return False` when the key is absent
from the right items, a `KeyError` when a required key is missing from its
own items, otherwise the overlap check of the two value types. -/
def tdCheckFwd (olap : Bool → Bool → MType → MType → Except String Bool)
    (ip pn : Bool) (li ri : List (String × MType)) (k : String) :
    Except String Bool :=
  match lookupTD ri k with
  | none => .ok false
  | some rv =>
      match lookupTD li k with
      | none => .error "required key missing from its own typed dict"
      | some lv => olap ip pn lv rv

/-- The body of the second loop of `are_typed_dicts_overlapping` at one
required key of the right typed dict; the flags given to the overlap check
are whatever the enclosing function passes. -/
def tdCheckRev (olap : Bool → Bool → MType → MType → Except String Bool)
    (ip pn : Bool) (li ri : List (String × MType)) (k : String) :
    Except String Bool :=
  match lookupTD li k with
  | none => .ok false
  | some lv =>
      match lookupTD ri k with
      | none => .error "required key missing from its own typed dict"
      | some rv => olap ip pn lv rv

/-- `are_typed_dicts_overlapping`: all required keys of the left typed dict
must be present and overlapping in the right one and vice versa.  The
source passes both flags to the checks of the first loop but only
`ignore_promotions` to those of the second loop (meet.py line 400). -/
def areTypedDictsOverlapping
    (olap : Bool → Bool → MType → MType → Except String Bool)
    (ip pn : Bool)
    (li : List (String × MType)) (lreq : List String)
    (ri : List (String × MType)) (rreq : List String) : Except String Bool :=
  match allM (tdCheckFwd olap ip pn li ri) lreq with
  | .error e => .error e
  | .ok false => .ok false
  | .ok true => allM (tdCheckRev olap ip false li ri) rreq

/-- `typed_dict_mapping_pair`: exactly one operand is a typed dict and the
other is an instance with `typing.Mapping` in its mro.  (The source asserts
that not both operands are typed dicts; its only caller has already
dispatched that case.) -/
def typedDictMappingPair (l r : MType) : Bool :=
  match l, r with
  | .typedDict _ _, .typedDict _ _ => false
  | .typedDict _ _, .inst c _ => hasBase c .mappingC
  | .inst c _, .typedDict _ _ => hasBase c .mappingC
  | _, _ => false

/-- `typed_dict_mapping_overlap`: the typed-record vs mapping overlap rule.
The mapping operand is mapped to its `typing.Mapping` base; an empty-mapping
shape (both arguments bottom) overlaps exactly the typed dicts without
required keys; otherwise a typed dict with required keys needs the key type
to overlap `str` and every required value to overlap the mapping's value
type, and one without required keys needs some non-required value to
overlap it. -/
def typedDictMappingOverlap (olap : MType → MType → Except String Bool)
    (l r : MType) : Except String Bool :=
  match
    (match l, r with
     | .typedDict li lreq, other => some (li, lreq, other)
     | other, .typedDict ri rreq => some (ri, rreq, other)
     | _, _ => none) with
  | none => .error "typed_dict_mapping_overlap: no typed dict operand"
  | some (items, req, other) =>
      match other with
      | .inst c cargs =>
          if hasBase c .mappingC then
            match mapInstanceToSupertype c cargs .mappingC with
            | [keyType, valueType] =>
                if mteq keyType .uninhabited && mteq valueType .uninhabited then
                  .ok req.isEmpty
                else if !req.isEmpty then
                  match olap keyType tdStrType with
                  | .error e => .error e
                  | .ok false => .ok false
                  | .ok true =>
                      allM (fun k =>
                        match lookupTD items k with
                        | none => .error "required key missing from its own typed dict"
                        | some v => olap v valueType) req
                else
                  match olap keyType tdStrType with
                  | .error e => .error e
                  | .ok false => .ok false
                  | .ok true =>
                      anyM (fun k =>
                        match lookupTD items k with
                        | none => .error "key missing from its own typed dict"
                        | some v => olap v valueType) (nonRequiredKeys items req)
            | _ => .error "unpacking the Mapping type arguments failed"
          else .error "no typing.Mapping base in mro"
      | _ => .error "typed_dict_mapping_overlap: other operand not an instance"

/-- Accessors of the type nodes (junk defaults on other shapes; every use
site has established the shape first, as the Python attribute accesses
assume). -/
def instCls : MType → ClassId
  | .inst c _ => c
  | _ => .objectC

def instArgs : MType → List MType
  | .inst _ a => a
  | _ => []

def litVal : MType → Nat
  | .literal v _ => v
  | _ => 0

def litFb : MType → ClassId
  | .literal _ f => f
  | _ => .objectC

def calArgs : MType → List MType
  | .callable a _ _ _ _ _ _ _ => a
  | _ => []

def calRet : MType → MType
  | .callable _ r _ _ _ _ _ _ => r
  | _ => .anyT

def calFb : MType → ClassId
  | .callable _ _ f _ _ _ _ _ => f
  | _ => .functionC

def typeItem : MType → MType
  | .typeT i => i
  | _ => .anyT

def tupItems : MType → List MType
  | .tupleT i _ => i
  | _ => []

def tdItems : MType → List (String × MType)
  | .typedDict i _ => i
  | _ => []

def tdReq : MType → List String
  | .typedDict _ r => r
  | _ => []

/-- An instance of `builtins.tuple` (`left.type.fullname == 'builtins.tuple'`). -/
def isInstTuple : MType → Bool
  | .inst .tupleC _ => true
  | _ => false

/-- A bare instance of a class (used to build literal and callable
fallbacks). -/
def clsInstance (c : ClassId) : MType := .inst c []

/-- `adjust_tuple`: materialize `Tuple[A, ...]` (an instance of
`builtins.tuple`) into a fixed-length tuple matching the other operand's
arity (or arity 1).  The Python indexing `left.args[0]` raises on a stale
argument-less tuple instance; that exception is an `Except.error` here. -/
def adjustTuple (l r : MType) : Except String (Option MType) :=
  if isInstTuple l then
    match instArgs l with
    | a0 :: _ =>
        .ok (some (.tupleT
          (List.replicate (if isTupleTT r then (tupItems r).length else 1) a0) l))
    | [] => .error "tuple instance with no type arguments"
  else .ok none

/-- The tail of `are_tuples_overlapping` once both operands are adjusted:
the two `assert isinstance(..., TupleType)` statements, the arity check and
the itemwise overlap loop. -/
def tuplesItemwise (olap : Bool → Bool → MType → MType → Except String Bool)
    (ip pn : Bool) (l1 r1 : MType) : Except String Bool :=
  if isTupleTT l1 && isTupleTT r1 then
    if (tupItems l1).length ≠ (tupItems r1).length then .ok false
    else allM (fun p => olap ip pn p.1 p.2) ((tupItems l1).zip (tupItems r1))
  else .error "operand is not a tuple"

/-- The second half of `are_tuples_overlapping`: adjust the right operand
against the already-adjusted left one, then run the itemwise tail. -/
def areTuplesStep2 (olap : Bool → Bool → MType → MType → Except String Bool)
    (ip pn : Bool) (l1 r : MType) : Except String Bool :=
  match adjustTuple r l1 with
  | .error e => .error e
  | .ok adjR => tuplesItemwise olap ip pn l1 (adjR.getD r)

/-- `are_tuples_overlapping`: adjust variable-arity tuple instances to
fixed-length tuples, then require equal arity and itemwise overlap. -/
def areTuplesOverlapping
    (olap : Bool → Bool → MType → MType → Except String Bool)
    (ip pn : Bool) (l r : MType) : Except String Bool :=
  match adjustTuple l r with
  | .error e => .error e
  | .ok adjL => areTuplesStep2 olap ip pn (adjL.getD l) r

/-- Modelled from the spec: `is_callable_compatible` (`mypy.subtypes`, not
under src/), as used by the overlap engine (`allow_partial_overlap=True`,
positional argument names ignored, `is_compat` deciding argument and return
compatibility).  The spec requires overlap to "remain symmetric under
argument swap", so the model is a symmetric arity-wise check: same arity,
and the callback accepts every corresponding argument pair and the return
pair. -/
def isCallableCompatible (compat : MType → MType → Except String Bool)
    (a1 : List MType) (r1 : MType) (a2 : List MType) (r2 : MType) :
    Except String Bool :=
  if a1.length ≠ a2.length then .ok false
  else allM (fun p => compat p.1 p.2) ((a1.zip a2) ++ [(r1, r2)])

/-- `_type_object_overlap` (nested in `is_overlapping_types`): the bespoke
`Type[C]` cases against a type-object callable and against a (meta)class
instance. -/
def typeObjectOverlap (olap : MType → MType → Except String Bool)
    (l r : MType) : Except String Bool :=
  match l, r with
  | .typeT item, .callable _ ret _ true _ _ _ _ => olap item ret
  | .typeT item, .inst c cargs =>
      match item with
      | .inst d _ =>
          match metaclassOf d with
          | some m => olap m (.inst c cargs)
          | none => .ok (hasBase c .typeC)
      | .anyT => .ok (hasBase c .typeC)
      | _ => .ok false
  | _, _ => .ok false

/-- Final stage of `is_overlapping_types`: the Instance vs Instance rule
(subtype fast path, then ancestry mapping and argumentwise overlap), and
the closing `assert type(left) != type(right)` before `return False`. -/
def overlapInstances (rec : Bool → Bool → MType → MType → Except String Bool)
    (so ip pn : Bool) (l r : MType) : Except String Bool :=
  if isInstT l && isInstT r then
    if isSubtype so ip l r || isSubtype so ip r l then .ok true
    else if hasBase (instCls l) (instCls r) then
      if (mapInstanceToSupertype (instCls l) (instArgs l) (instCls r)).length =
          (instArgs r).length then
        allM (fun p => rec ip pn p.1 p.2)
          ((mapInstanceToSupertype (instCls l) (instArgs l) (instCls r)).zip
            (instArgs r))
      else .ok false
    else if hasBase (instCls r) (instCls l) then
      if (instArgs l).length =
          (mapInstanceToSupertype (instCls r) (instArgs r) (instCls l)).length then
        allM (fun p => rec ip pn p.1 p.2)
          ((instArgs l).zip
            (mapInstanceToSupertype (instCls r) (instArgs r) (instCls l)))
      else .ok false
    else .ok false
  else if kindTag l = kindTag r then
    .error "assert type(left) != type(right) failed"
  else .ok false

/-- Literal stage of `is_overlapping_types`: equal literal values degrade
both sides to their fallbacks, unequal values never overlap, a single
literal operand degrades to its fallback. -/
def overlapLiterals (rec : Bool → Bool → MType → MType → Except String Bool)
    (so ip pn : Bool) (l r : MType) : Except String Bool :=
  if isLiteralT l && isLiteralT r then
    if litVal l = litVal r then
      overlapInstances rec so ip pn (clsInstance (litFb l)) (clsInstance (litFb r))
    else .ok false
  else if isLiteralT l then overlapInstances rec so ip pn (clsInstance (litFb l)) r
  else if isLiteralT r then overlapInstances rec so ip pn l (clsInstance (litFb r))
  else overlapInstances rec so ip pn l r

/-- Callable stage of `is_overlapping_types`: two callables go to the
compatibility check, a single callable operand degrades to its fallback
instance. -/
def overlapCallables (rec : Bool → Bool → MType → MType → Except String Bool)
    (so ip pn : Bool) (l r : MType) : Except String Bool :=
  if isCallableT l && isCallableT r then
    isCallableCompatible (rec ip pn) (calArgs l) (calRet l) (calArgs r) (calRet r)
  else if isCallableT l then
    overlapLiterals rec so ip pn (clsInstance (calFb l)) r
  else if isCallableT r then
    overlapLiterals rec so ip pn l (clsInstance (calFb r))
  else overlapLiterals rec so ip pn l r

/-- Type-object stage of `is_overlapping_types`: `Type[A]` vs `Type[B]`
recurses on the items; a single `Type[...]` operand goes through the
bespoke `_type_object_overlap` cases in both orders. -/
def overlapTypeObjects (rec : Bool → Bool → MType → MType → Except String Bool)
    (so ip pn : Bool) (l r : MType) : Except String Bool :=
  if isTypeTT l && isTypeTT r then rec ip pn (typeItem l) (typeItem r)
  else if isTypeTT l || isTypeTT r then
    orE (typeObjectOverlap (rec ip pn) l r) (typeObjectOverlap (rec ip pn) r l)
  else overlapCallables rec so ip pn l r

/-- Tuple stage of `is_overlapping_types`: two tuple-like operands go to
`are_tuples_overlapping` (with only `ignore_promotions` forwarded, as in
the source); a single `TupleType` operand degrades to its fallback. -/
def overlapTuples (rec : Bool → Bool → MType → MType → Except String Bool)
    (so ip pn : Bool) (l r : MType) : Except String Bool :=
  if isTupleLike l && isTupleLike r then areTuplesOverlapping rec ip false l r
  else
    let p := if isTupleTT l then (tupleFallback l, r)
             else if isTupleTT r then (l, tupleFallback r) else (l, r)
    overlapTypeObjects rec so ip pn p.1 p.2

/-- Typed-dict stage of `is_overlapping_types`: two typed dicts go to
`are_typed_dicts_overlapping` (with only `ignore_promotions` forwarded, as
in the source at meet.py line 256); a typed-dict/mapping pair goes to
`typed_dict_mapping_overlap`; a single typed-dict operand degrades to its
fallback instance. -/
def overlapTypedDicts (rec : Bool → Bool → MType → MType → Except String Bool)
    (so ip pn : Bool) (l r : MType) : Except String Bool :=
  if isTypedDictT l && isTypedDictT r then
    areTypedDictsOverlapping rec ip false (tdItems l) (tdReq l) (tdItems r) (tdReq r)
  else if typedDictMappingPair l r then typedDictMappingOverlap (rec ip pn) l r
  else
    let p := if isTypedDictT l then (tdFallbackInstance, r)
             else if isTypedDictT r then (l, tdFallbackInstance) else (l, r)
    overlapTuples rec so ip pn p.1 p.2

/-- The body of `is_overlapping_types` after the entry checks and the
non-strict-optional union simplification: `Any`, the proper-subtype fast
path, the `None`/TypeVar prohibition, multi-variant decomposition, the
strict-optional `None` mismatch, then the shape stages. -/
def overlapCore (rec : Bool → Bool → MType → MType → Except String Bool)
    (so ip pn : Bool) (left right : MType) : Except String Bool :=
  if isAnyTT left || isAnyTT right then .ok true
  else if isProperSubtype so ip left right || isProperSubtype so ip right left then
    .ok true
  else if pn && (isNoneTypevarOverlap left right || isNoneTypevarOverlap right left) then
    .ok false
  else if (getPossibleVariants left).length > 1 ||
      (getPossibleVariants right).length > 1 ||
      isTypeVarT left || isTypeVarT right then
    anyM (fun p => rec ip pn p.1 p.2)
      (pairProd (getPossibleVariants left) (getPossibleVariants right))
  else if so && (isNoneTT left != isNoneTT right) then .ok false
  else overlapTypedDicts rec so ip pn left right

/-- `is_overlapping_types` (meet.py line 140): can a value of type `left`
also be of type `right` or vice versa?  Transcribed step for step from the
source: the type-guard override, the `PartialType` assertion, the permissive
transient markers, the non-strict-optional union simplification, and then
`overlapCore` with the recursion one fuel step down.  The fuel bounds the
recursion depth; running out is an `Except.error`. -/
def isOverlapping (so : Bool) :
    Nat → Bool → Bool → MType → MType → Except String Bool
  | 0, _, _, _, _ => .error "out of fuel"
  | n + 1, ip, pn, left0, right0 =>
    if isTypeGuardT left0 || isTypeGuardT right0 then .ok true
    else if isPartialTypeT left0 || isPartialTypeT right0 then
      .error "Unexpectedly encountered partial type"
    else if isIllegalT left0 || isIllegalT right0 then .ok true
    else
      overlapCore (isOverlapping so n) so ip pn
        (if so then left0 else stripNoneFromUnion left0)
        (if so then right0 else stripNoneFromUnion right0)

def isUnboundT : MType → Bool
  | .unboundT => true
  | _ => false

def isErasedT : MType → Bool
  | .erasedT => true
  | _ => false

def isUninhabitedT : MType → Bool
  | .uninhabited => true
  | _ => false

/-- The bottom type produced by the meet engine's incompatible cases:
`UninhabitedType` under strict-optional mode, `NoneType` otherwise. -/
def bottomDefault (so : Bool) : MType := if so then .uninhabited else .noneT

/-- `TypeMeetVisitor.default`: `AnyType` for an `UnboundType` operand,
otherwise the bottom type. -/
def defaultMeet (so : Bool) (s : MType) : MType :=
  if isUnboundT s then .anyT else bottomDefault so

/-- Set the `from_type_type` flag of a callable
(`result.from_type_type = True`). -/
def setFromTypeType (c : MType) (v : Bool) : MType :=
  match c with
  | .callable a r f o b _ n g => .callable a r f o b v n g
  | t => t

/-- Modelled from the spec: `is_similar_callables` (`mypy.join`, not under
src/): two callables of "similar shape (same arity/kind)"; the model's
callables have no optional or variadic arguments, so this is same arity. -/
def isSimilarCallables (t s : MType) : Bool :=
  match t, s with
  | .callable a2 _ _ _ _ _ _ _, .callable a1 _ _ _ _ _ _ _ =>
      decide (a2.length = a1.length)
  | _, _ => false

/-- Modelled from the spec: `combine_similar_callables` (`mypy.join`, not
under src/), used by the meet engine when the callables are equivalent:
"merge by unioning return types and same-position arg types"; the fallback
is `builtins.function` only when both operands have it. -/
def combineSimilarCallables (t s : MType) : MType :=
  match t, s with
  | .callable a2 r2 f2 o2 b2 t2 n2 g2, .callable a1 r1 f1 _ _ _ _ _ =>
      .callable (List.zipWith (fun x y => makeSimplifiedUnion [x, y]) a2 a1)
        (makeSimplifiedUnion [r2, r1])
        (if f2 ≠ .functionC then f2 else f1) o2 b2 t2 n2 g2
  | _, _ => t

/-- Modelled from the spec: `join.unpack_callback_protocol` (not under
src/): unpacking the `__call__` member of a callback protocol.  The model's
class table declares no protocols, so there is never anything to unpack. -/
def unpackCallbackProtocol (_t : MType) : Option MType := none

/-- `meet_similar_callables` (meet.py line 694): a callable whose argument
types are the positionwise joins (contravariance) and whose return type is
the meet of the return types; the fallback is `builtins.function` only if
both operands have it; the name is dropped. -/
def meetSimilarCallables (rec : MType → MType → Except String MType)
    (so : Bool) (t s : MType) : Except String MType :=
  match t, s with
  | .callable a2 r2 f2 o2 b2 t2 _ g2, .callable a1 r1 f1 _ _ _ _ _ =>
      match rec r2 r1 with
      | .error e => .error e
      | .ok ret =>
          .ok (.callable (List.zipWith (joinTypes so) a2 a1) ret
            (if f2 ≠ .functionC then f2 else f1) o2 b2 t2 false g2)
  | _, _ => .error "meet_similar_callables: non-callable operand"

/-- The double dispatch `t.accept(TypeMeetVisitor(s))` of `meet_types`:
each branch is the corresponding `visit_*` method of `TypeMeetVisitor` with
`self.s = s` and dispatched operand `t`.  `visit_partial_type`'s
`assert False` and the missing visitor of the guard wrapper are
`Except.error`s. -/
def meetVisit (rec : MType → MType → Except String MType) (so : Bool)
    (s t : MType) : Except String MType :=
  match t with
  | .unboundT =>
      match s with
      | .noneT => if so then .ok .anyT else .ok .noneT
      | .uninhabited => .ok .uninhabited
      | _ => .ok .anyT
  | .anyT => .ok s
  | .union items =>
      match s with
      | .union sitems =>
          match mapeM (fun p => rec p.1 p.2) (pairProd items sitems) with
          | .error e => .error e
          | .ok meets => .ok (makeSimplifiedUnion meets)
      | _ =>
          match mapeM (fun x => rec x s) items with
          | .error e => .error e
          | .ok meets => .ok (makeSimplifiedUnion meets)
  | .noneT =>
      if so then
        if isNoneTT s || isObjectInstance s then .ok .noneT else .ok .uninhabited
      else .ok .noneT
  | .uninhabited => .ok .uninhabited
  | .deletedT =>
      match s with
      | .noneT => if so then .ok .deletedT else .ok .noneT
      | .uninhabited => .ok .uninhabited
      | _ => .ok .deletedT
  | .erasedT => .ok s
  | .typeVar i2 _ _ =>
      match s with
      | .typeVar i1 v1 u1 =>
          if i1 = i2 then .ok (.typeVar i1 v1 u1)
          else .ok (defaultMeet so (.typeVar i1 v1 u1))
      | _ => .ok (defaultMeet so s)
  | .inst tc targs =>
      match s with
      | .inst sc sargs =>
          if tc = sc then
            if isSubtype so false (.inst tc targs) (.inst sc sargs) ||
                isSubtype so false (.inst sc sargs) (.inst tc targs) then
              match mapeM (fun p => rec p.1 p.2) (targs.zip sargs) with
              | .error e => .error e
              | .ok args => .ok (.inst tc args)
            else .ok (bottomDefault so)
          else if isSubtype so false (.inst tc targs) (.inst sc sargs) then
            .ok (.inst tc targs)
          else if isSubtype so false (.inst sc sargs) (.inst tc targs) then
            .ok (.inst sc sargs)
          else .ok (bottomDefault so)
      | .callable _ _ _ _ _ _ _ _ =>
          if isProtocolC tc then
            match unpackCallbackProtocol (.inst tc targs) with
            | some call => rec call s
            | none => .ok (defaultMeet so s)
          else if funcIsTypeObj s && isMetaclassC tc then
            if isSubtype so false (funcFallback s) (.inst tc targs) then .ok s
            else .ok (defaultMeet so s)
          else .ok (defaultMeet so s)
      | .overloaded _ =>
          if isProtocolC tc then
            match unpackCallbackProtocol (.inst tc targs) with
            | some call => rec call s
            | none => .ok (defaultMeet so s)
          else if funcIsTypeObj s && isMetaclassC tc then
            if isSubtype so false (funcFallback s) (.inst tc targs) then .ok s
            else .ok (defaultMeet so s)
          else .ok (defaultMeet so s)
      | .typeT _ => rec (.inst tc targs) s
      | .tupleT _ _ => rec (.inst tc targs) s
      | .literal _ _ => rec (.inst tc targs) s
      | .typedDict _ _ => rec (.inst tc targs) s
      | _ => .ok (defaultMeet so s)
  | .callable a2 r2 f2 o2 b2 t2 n2 g2 =>
      match s with
      | .callable a1 r1 f1 o1 b1 t1 n1 g1 =>
          if isSimilarCallables (.callable a2 r2 f2 o2 b2 t2 n2 g2)
              (.callable a1 r1 f1 o1 b1 t1 n1 g1) then
            if isEquivalent so (.callable a2 r2 f2 o2 b2 t2 n2 g2)
                (.callable a1 r1 f1 o1 b1 t1 n1 g1) then
              .ok (combineSimilarCallables (.callable a2 r2 f2 o2 b2 t2 n2 g2)
                (.callable a1 r1 f1 o1 b1 t1 n1 g1))
            else
              match meetSimilarCallables rec so
                  (.callable a2 r2 f2 o2 b2 t2 n2 g2)
                  (.callable a1 r1 f1 o1 b1 t1 n1 g1) with
              | .error e => .error e
              | .ok result =>
                  let result2 :=
                    if !((o2 && b2) || (o1 && b1)) then setFromTypeType result true
                    else result
                  match result2 with
                  | .callable ra rr rf ro rb rt rn rg =>
                      if isUninhabitedT rr then
                        .ok (defaultMeet so (.callable a1 r1 f1 o1 b1 t1 n1 g1))
                      else .ok (.callable ra rr rf ro rb rt rn rg)
                  | other => .ok other
          else .ok (defaultMeet so (.callable a1 r1 f1 o1 b1 t1 n1 g1))
      | .typeT sitem =>
          if o2 && !g2 then
            match rec sitem r2 with
            | .error e => .error e
            | .ok res =>
                if !(isNoneTT res || isUninhabitedT res) then .ok (.typeT res)
                else .ok (defaultMeet so (.typeT sitem))
          else .ok (defaultMeet so (.typeT sitem))
      | .inst sc sargs =>
          if isProtocolC sc then
            match unpackCallbackProtocol (.inst sc sargs) with
            | some call => rec (.callable a2 r2 f2 o2 b2 t2 n2 g2) call
            | none => .ok (defaultMeet so (.inst sc sargs))
          else .ok (defaultMeet so (.inst sc sargs))
      | _ => .ok (defaultMeet so s)
  | .overloaded titems =>
      match s with
      | .callable a1 r1 f1 o1 b1 t1 n1 g1 =>
          if mteqList (funcItems (.callable a1 r1 f1 o1 b1 t1 n1 g1)) titems then
            .ok (.overloaded titems)
          else if isSubtype so false (.callable a1 r1 f1 o1 b1 t1 n1 g1)
              (.overloaded titems) then .ok (.callable a1 r1 f1 o1 b1 t1 n1 g1)
          else if isSubtype so false (.overloaded titems)
              (.callable a1 r1 f1 o1 b1 t1 n1 g1) then .ok (.overloaded titems)
          else rec (funcFallback (.overloaded titems))
            (funcFallback (.callable a1 r1 f1 o1 b1 t1 n1 g1))
      | .overloaded sitems =>
          if mteqList (funcItems (.overloaded sitems)) titems then
            .ok (.overloaded titems)
          else if isSubtype so false (.overloaded sitems) (.overloaded titems) then
            .ok (.overloaded sitems)
          else if isSubtype so false (.overloaded titems) (.overloaded sitems) then
            .ok (.overloaded titems)
          else rec (funcFallback (.overloaded titems)) (funcFallback (.overloaded sitems))
      | .inst sc sargs =>
          if isProtocolC sc then
            match unpackCallbackProtocol (.inst sc sargs) with
            | some call => rec (.overloaded titems) call
            | none => rec (funcFallback (.overloaded titems)) (.inst sc sargs)
          else rec (funcFallback (.overloaded titems)) (.inst sc sargs)
      | _ => rec (funcFallback (.overloaded titems)) s
  | .tupleT titems tfb =>
      match s with
      | .tupleT sitems sfb =>
          if decide (sitems.length = titems.length) then
            match mapeM (fun p => rec p.1 p.2) (titems.zip sitems) with
            | .error e => .error e
            | .ok items => .ok (.tupleT items (tupleFallback (.tupleT titems tfb)))
          else .ok (defaultMeet so (.tupleT sitems sfb))
      | .inst .tupleC (a0 :: _) =>
          match mapeM (fun it => rec it a0) titems with
          | .error e => .error e
          | .ok items => .ok (.tupleT items tfb)
      | .inst sc sargs =>
          if isProperSubtype so false (.tupleT titems tfb) (.inst sc sargs) then
            .ok (.tupleT titems tfb)
          else .ok (defaultMeet so (.inst sc sargs))
      | _ => .ok (defaultMeet so s)
  | .typedDict ti treq =>
      match s with
      | .typedDict si sreq =>
          if si.all (fun p =>
              match lookupTD ti p.1 with
              | none => true
              | some rv =>
                  isEquivalent so p.2 rv &&
                    (treq.contains p.1 == sreq.contains p.1)) then
            .ok (.typedDict (si ++ ti.filter (fun p => (lookupTD si p.1).isNone))
              (treq ++ sreq.filter (fun k => !(treq.contains k))))
          else .ok (defaultMeet so (.typedDict si sreq))
      | .inst sc sargs =>
          if isSubtype so false (.typedDict ti treq) (.inst sc sargs) then
            .ok (.typedDict ti treq)
          else .ok (defaultMeet so (.inst sc sargs))
      | _ => .ok (defaultMeet so s)
  | .literal v2 f2 =>
      match s with
      | .literal v1 f1 =>
          if v1 = v2 ∧ f1 = f2 then .ok (.literal v2 f2)
          else .ok (defaultMeet so (.literal v1 f1))
      | .inst sc sargs =>
          if isSubtype so false (callableFallback f2) (.inst sc sargs) then
            .ok (.literal v2 f2)
          else .ok (defaultMeet so (.inst sc sargs))
      | _ => .ok (defaultMeet so s)
  | .partialT => .error "Internal error"
  | .typeT titem =>
      match s with
      | .typeT sitem =>
          match rec titem sitem with
          | .error e => .error e
          | .ok typ => .ok (if isNoneTT typ then typ else .typeT typ)
      | .inst .typeC _ => .ok (.typeT titem)
      | .inst sc sargs =>
          if isProtocolC sc then .ok (defaultMeet so (.inst sc sargs))
          else .ok (defaultMeet so (.inst sc sargs))
      | .callable _ _ _ _ _ _ _ _ => rec (.typeT titem) s
      | _ => .ok (defaultMeet so s)
  | .typeGuard _ => .error "no visitor method for TypeGuardedType"

/-- `meet_types` (meet.py line 34): the greatest lower bound of two types.
The model has no type aliases, so `is_recursive_pair` is always false and
`get_proper_type` is the identity; `ErasedType` absorbs, `Any` yields the
other operand, a lone union operand is moved to the dispatch position, then
the visitor dispatches on the second operand. -/
def meetTypes (so : Bool) : Nat → MType → MType → Except String MType
  | 0, _, _ => .error "out of fuel"
  | n + 1, s0, t0 =>
    if isErasedT s0 then .ok s0
    else if isAnyTT s0 then .ok t0
    else
      let p := if isUnionT s0 && !(isUnionT t0) then (t0, s0) else (s0, t0)
      meetVisit (meetTypes so n) so p.1 p.2

/-- `narrow_declared_type` (meet.py line 52): restrict `declared` using the
evidence type `narrowed`.  A guard-wrapper evidence always overrides,
identical types return as-is, a declared union distributes, non-overlap
(with the none/typevar prohibition enabled) gives bottom, then the
remaining evidence cases in source order. -/
def narrowDeclaredType (so : Bool) :
    Nat → MType → MType → Except String MType
  | _, _, .typeGuard g => .ok g
  | 0, _, _ => .error "out of fuel"
  | n + 1, declared, narrowed =>
    if mteq declared narrowed then .ok declared
    else
      match declared with
      | .union items =>
          match mapeM (fun x => narrowDeclaredType so n x narrowed)
              (relevantItems so items) with
          | .error e => .error e
          | .ok res => .ok (makeSimplifiedUnion res)
      | _ =>
        match isOverlapping so n false true declared narrowed with
        | .error e => .error e
        | .ok false => .ok (bottomDefault so)
        | .ok true =>
            match narrowed with
            | .union nitems =>
                match mapeM (fun x => narrowDeclaredType so n declared x)
                    (relevantItems so nitems) with
                | .error e => .error e
                | .ok res => .ok (makeSimplifiedUnion res)
            | _ =>
              if isAnyTT narrowed then .ok narrowed
              else if (match narrowed with
                       | .typeVar _ _ ub => isSubtype so false ub declared
                       | _ => false) then .ok narrowed
              else
                match declared, narrowed with
                | .typeT di, .typeT ni =>
                    match narrowDeclaredType so n di ni with
                    | .error e => .error e
                    | .ok x => .ok (.typeT x)
                | _, _ =>
                  if isTypeTT declared &&
                      (match narrowed with
                       | .inst c _ => isMetaclassC c
                       | _ => false) then .ok declared
                  else if isInstT declared || isTupleTT declared ||
                      isTypeTT declared || isLiteralT declared then
                    meetTypes so n declared narrowed
                  else if isTypedDictT declared && isInstT narrowed then
                    (match narrowed with
                     | .inst .dictC nargs =>
                         if nargs.all isAnyTT then .ok declared
                         else meetTypes so n declared narrowed
                     | _ => meetTypes so n declared narrowed)
                  else .ok narrowed

/-- The typed-dict vs typed-dict overlap rule as the spec words it
("the reverse check additionally must honor the
`ignore_promotions`/none-typevar flags consistently"): identical to the
source transcription `areTypedDictsOverlapping` except that the
reverse-direction loop passes both flags to the overlap checks, where the
source passes only `ignore_promotions` (meet.py line 400). -/
def areTypedDictsOverlappingSpec
    (olap : Bool → Bool → MType → MType → Except String Bool)
    (ip pn : Bool)
    (li : List (String × MType)) (lreq : List String)
    (ri : List (String × MType)) (rreq : List String) : Except String Bool :=
  match allM (tdCheckFwd olap ip pn li ri) lreq with
  | .error e => .error e
  | .ok false => .ok false
  | .ok true => allM (tdCheckRev olap ip pn li ri) rreq

mutual

theorem mteq_refl : ∀ a : MType, mteq a a = true
  | .anyT => rfl
  | .noneT => rfl
  | .uninhabited => rfl
  | .unboundT => rfl
  | .erasedT => rfl
  | .deletedT => rfl
  | .union items => by simp [mteq, mteqList_refl items]
  | .inst c ca => by simp [mteq, mteqList_refl ca]
  | .tupleT a af => by simp [mteq, mteqList_refl a, mteq_refl af]
  | .typedDict ia ra => by simp [mteq, mteqItems_refl ia]
  | .callable a1 r1 f1 o1 b1 t1 n1 g1 => by
      simp [mteq, mteqList_refl a1, mteq_refl r1]
  | .overloaded a => by simp [mteq, mteqList_refl a]
  | .typeVar i1 v1 u1 => by simp [mteq, mteqList_refl v1, mteq_refl u1]
  | .literal v1 f1 => by simp [mteq]
  | .typeT a => by simp [mteq, mteq_refl a]
  | .typeGuard a => by simp [mteq, mteq_refl a]
  | .partialT => rfl

theorem mteqList_refl : ∀ l : List MType, mteqList l l = true
  | [] => rfl
  | a :: as => by simp [mteqList, mteq_refl a, mteqList_refl as]

theorem mteqItems_refl : ∀ l : List (String × MType), mteqItems l l = true
  | [] => rfl
  | (k, v) :: as => by simp [mteqItems, mteq_refl v, mteqItems_refl as]

end

theorem anyM_ok_true_mem {α : Type} {f : α → Except String Bool} :
    ∀ {L : List α}, anyM f L = .ok true → ∃ a ∈ L, f a = .ok true := by
  intro L
  induction L with
  | nil => intro h; simp [anyM] at h
  | cons a as ih =>
      intro h
      cases hfa : f a with
      | error e => simp [anyM, hfa] at h
      | ok b =>
          cases b with
          | true => exact ⟨a, by simp, hfa⟩
          | false =>
              have h2 : anyM f as = .ok true := by simpa [anyM, hfa] using h
              obtain ⟨x, hx, hfx⟩ := ih h2
              exact ⟨x, by simp [hx], hfx⟩

theorem anyM_ok_false_all {α : Type} {f : α → Except String Bool} :
    ∀ {L : List α}, anyM f L = .ok false → ∀ a ∈ L, f a = .ok false := by
  intro L
  induction L with
  | nil => intro _ a ha; simp at ha
  | cons a as ih =>
      intro h x hx
      cases hfa : f a with
      | error e => simp [anyM, hfa] at h
      | ok b =>
          cases b with
          | true => simp [anyM, hfa] at h
          | false =>
              have h2 : anyM f as = .ok false := by simpa [anyM, hfa] using h
              rcases List.mem_cons.mp hx with rfl | hx2
              · exact hfa
              · exact ih h2 x hx2

theorem allM_ok_true_all {α : Type} {f : α → Except String Bool} :
    ∀ {L : List α}, allM f L = .ok true → ∀ a ∈ L, f a = .ok true := by
  intro L
  induction L with
  | nil => intro _ a ha; simp at ha
  | cons a as ih =>
      intro h x hx
      cases hfa : f a with
      | error e => simp [allM, hfa] at h
      | ok b =>
          cases b with
          | false => simp [allM, hfa] at h
          | true =>
              have h2 : allM f as = .ok true := by simpa [allM, hfa] using h
              rcases List.mem_cons.mp hx with rfl | hx2
              · exact hfa
              · exact ih h2 x hx2

theorem allM_ok_false_mem {α : Type} {f : α → Except String Bool} :
    ∀ {L : List α}, allM f L = .ok false → ∃ a ∈ L, f a = .ok false := by
  intro L
  induction L with
  | nil => intro h; simp [allM] at h
  | cons a as ih =>
      intro h
      cases hfa : f a with
      | error e => simp [allM, hfa] at h
      | ok b =>
          cases b with
          | false => exact ⟨a, by simp, hfa⟩
          | true =>
              have h2 : allM f as = .ok false := by simpa [allM, hfa] using h
              obtain ⟨x, hx, hfx⟩ := ih h2
              exact ⟨x, by simp [hx], hfx⟩

/-- Two short-circuit existentials agree whenever both return a value, given
elementwise correspondences forcing agreement. -/
theorem anyM_agree {α β : Type} {f : α → Except String Bool}
    {g : β → Except String Bool} {L : List α} {M : List β} {u v : Bool}
    (corrL : ∀ a ∈ L, ∃ b ∈ M, ∀ x y, f a = .ok x → g b = .ok y → x = y)
    (corrM : ∀ b ∈ M, ∃ a ∈ L, ∀ x y, f a = .ok x → g b = .ok y → x = y)
    (hu : anyM f L = .ok u) (hv : anyM g M = .ok v) : u = v := by
  cases u <;> cases v
  · rfl
  · obtain ⟨b, hb, hgb⟩ := anyM_ok_true_mem hv
    obtain ⟨a, ha, hag⟩ := corrM b hb
    have hfa := anyM_ok_false_all hu a ha
    exact (hag false true hfa hgb).symm ▸ rfl
  · obtain ⟨a, ha, hfa⟩ := anyM_ok_true_mem hu
    obtain ⟨b, hb, hag⟩ := corrL a ha
    have hgb := anyM_ok_false_all hv b hb
    exact hag true false hfa hgb
  · rfl

/-- Two short-circuit universals agree whenever both return a value, given
elementwise correspondences forcing agreement. -/
theorem allM_agree {α β : Type} {f : α → Except String Bool}
    {g : β → Except String Bool} {L : List α} {M : List β} {u v : Bool}
    (corrL : ∀ a ∈ L, ∃ b ∈ M, ∀ x y, f a = .ok x → g b = .ok y → x = y)
    (corrM : ∀ b ∈ M, ∃ a ∈ L, ∀ x y, f a = .ok x → g b = .ok y → x = y)
    (hu : allM f L = .ok u) (hv : allM g M = .ok v) : u = v := by
  cases u <;> cases v
  · rfl
  · obtain ⟨a, ha, hfa⟩ := allM_ok_false_mem hu
    obtain ⟨b, hb, hag⟩ := corrL a ha
    have hgb := allM_ok_true_all hv b hb
    exact hag false true hfa hgb
  · obtain ⟨b, hb, hgb⟩ := allM_ok_false_mem hv
    obtain ⟨a, ha, hag⟩ := corrM b hb
    have hfa := allM_ok_true_all hu a ha
    exact hag true false hfa hgb
  · rfl

/-- `orE a b` and `orE b a` agree whenever both return a value. -/
theorem orE_both_ok {x y : Except String Bool} {u v : Bool}
    (h1 : orE x y = .ok u) (h2 : orE y x = .ok v) : u = v := by
  cases x with
  | error e => simp [orE] at h1
  | ok a =>
      cases y with
      | error e2 => cases a <;> simp_all [orE]
      | ok b => cases a <;> cases b <;> simp_all [orE]

theorem mem_pairProd {α β : Type} {l : List α} {r : List β} {a : α} {b : β} :
    (a, b) ∈ pairProd l r ↔ a ∈ l ∧ b ∈ r := by
  simp [pairProd]

theorem mem_zip_swap {α β : Type} :
    ∀ {l : List α} {r : List β} {a : α} {b : β},
      (a, b) ∈ l.zip r → (b, a) ∈ r.zip l := by
  intro l
  induction l with
  | nil => intro r a b h; simp [List.zip] at h
  | cons x xs ih =>
      intro r a b h
      cases r with
      | nil => simp [List.zip] at h
      | cons y ys =>
          rcases List.mem_cons.mp h with heq | hmem
          · rw [Prod.mk.injEq] at heq
            exact heq.1 ▸ heq.2 ▸ List.mem_cons_self _ _
          · exact List.mem_cons_of_mem _ (ih hmem)

theorem isProperSubtype_refl (so ip : Bool) (x : MType) :
    isProperSubtype so ip x x = true := by
  simp [isProperSubtype, mteq_refl]

theorem hasBase_antisymm :
    ∀ c d : ClassId, hasBase c d = true → hasBase d c = true → c = d := by
  decide

theorem mapInstanceToSupertype_self (c : ClassId) (a : List MType) :
    mapInstanceToSupertype c a c = a := by
  simp [mapInstanceToSupertype]

/-- C8: for every declared type `d` and every type `g`,
`narrow_declared_type(d, TypeGuardedType(g))` returns the enclosed type `g`
verbatim, even when `d` and `g` do not overlap: the guard check is the very
first step of `narrow_declared_type`. -/
theorem narrow_guard_override (so : Bool) (n : Nat) (d g : MType) :
    narrowDeclaredType so n d (.typeGuard g) = .ok g := by
  cases n <;> rfl

/-- C9 counterexample: `is_overlapping_types(bottom, bottom)` returns `True`
(the proper-subtype fast path accepts `Uninhabited` against itself), so the
claimed exception "unless `a` is bottom" does not hold on the code. -/
theorem overlap_bottom_counterexample :
    isOverlapping true 1 false false .uninhabited .uninhabited = .ok true := rfl

/-- C9 (amended): `is_overlapping_types(a, a)` returns `True` for every type
`a` other than `PartialType` (which raises), including the bottom type. -/
theorem overlap_reflexive (so : Bool) (n : Nat) (ip pn : Bool) (a : MType)
    (h : a ≠ .partialT) : isOverlapping so (n + 1) ip pn a a = .ok true := by
  have hp : isPartialTypeT a = false := by
    cases a <;> simp_all [isPartialTypeT]
  cases hg : isTypeGuardT a <;> cases hi : isIllegalT a <;>
    cases ha : isAnyTT (if so then a else stripNoneFromUnion a) <;>
      simp [isOverlapping, overlapCore, hp, hg, hi, ha, isProperSubtype_refl]

/-- Witness for `overlap_reflexive` at the `int` instance. -/
theorem overlap_reflexive_witness :
    (MType.inst .intC [] ≠ MType.partialT) ∧
      isOverlapping true 1 false false (.inst .intC []) (.inst .intC []) = .ok true :=
  ⟨(by intro h; cases h),
   overlap_reflexive true 0 false false (.inst .intC []) (by intro h; cases h)⟩

/-- C2 counterexample: under strict-optional mode the meet of `None` with
`Any` is `None` in both argument orders, although `Any` is neither `None`
nor `builtins.object` and the claim therefore demands `Uninhabited`. -/
theorem meet_none_any_counterexample :
    meetTypes true 1 .noneT .anyT = .ok .noneT ∧
      meetTypes true 1 .anyT .noneT = .ok .noneT := ⟨rfl, rfl⟩

/-- C2 (amended): when `None` is the dispatched (second) operand and the
first operand `s` is not `Any`, not `Erased` and not a union, the meet is,
under strict-optional mode, `None` exactly when `s` is `None` or a
`builtins.object` instance and `Uninhabited` otherwise; outside
strict-optional mode it is `None`.  In particular `meet(None, int)` is
`Uninhabited` with strict-optional on and `None` with it off. -/
theorem meet_none_rule :
    (∀ (so : Bool) (n : Nat) (s : MType), isAnyTT s = false → isErasedT s = false →
        isUnionT s = false →
        meetTypes so (n + 1) s .noneT =
          .ok (if so then
                 (if isNoneTT s || isObjectInstance s then .noneT else .uninhabited)
               else .noneT)) ∧
    (∀ (so : Bool) (n : Nat),
        meetTypes so (n + 1) .noneT (.inst .intC []) = .ok (bottomDefault so)) := by
  constructor
  · intro so n s h1 h2 h3
    cases so <;> cases hno : (isNoneTT s || isObjectInstance s) <;>
      simp [meetTypes, meetVisit, h1, h2, h3, hno]
  · intro so n
    cases so <;> rfl

/-- Witness for `meet_none_rule` at `object`, `int` and both strict modes. -/
theorem meet_none_rule_witness :
    meetTypes true 1 (.inst .objectC []) .noneT = .ok .noneT ∧
      meetTypes true 1 (.inst .intC []) .noneT = .ok .uninhabited ∧
      meetTypes false 1 (.inst .intC []) .noneT = .ok .noneT ∧
      meetTypes true 1 .noneT (.inst .intC []) = .ok .uninhabited :=
  ⟨meet_none_rule.1 true 0 (.inst .objectC []) rfl rfl rfl,
   meet_none_rule.1 true 0 (.inst .intC []) rfl rfl rfl,
   meet_none_rule.1 false 0 (.inst .intC []) rfl rfl rfl,
   meet_none_rule.2 true 0⟩

/-- C7 counterexample: `meet_types(Partial, int)` does not fail loudly: the
visitor dispatches on the second operand, `visit_instance` finds that the
`Partial` first operand matches none of its cases and silently returns the
default bottom. -/
theorem partial_meet_counterexample :
    meetTypes true 1 .partialT (.inst .intC []) = .ok .uninhabited := rfl

/-- C7 (amended): `is_overlapping_types` asserts whenever either operand is
a `PartialType` unless a guard wrapper returned `True` first, and
`meet_types` asserts only when the dispatched (second, after the
`Erased`/`Any`/union reordering) operand is `Partial`; when the first
operand is `Partial` and the second an instance, it silently returns the
default bottom instead. -/
theorem partial_error_behavior :
    (∀ (so : Bool) (n : Nat) (ip pn : Bool) (l r : MType),
        isTypeGuardT l = false → isTypeGuardT r = false →
        (l = .partialT ∨ r = .partialT) →
        isOverlapping so (n + 1) ip pn l r =
          .error "Unexpectedly encountered partial type") ∧
    (∀ (so : Bool) (n : Nat) (s : MType),
        isErasedT s = false → isAnyTT s = false → isUnionT s = false →
        meetTypes so (n + 1) s .partialT = .error "Internal error") ∧
    (∀ (so : Bool) (n : Nat) (c : ClassId) (args : List MType),
        meetTypes so (n + 1) .partialT (.inst c args) = .ok (bottomDefault so)) := by
  refine ⟨?_, ?_, ?_⟩
  · intro so n ip pn l r h1 h2 h3
    rcases h3 with rfl | rfl <;> simp [isOverlapping, h1, h2, isPartialTypeT]
  · intro so n s h1 h2 h3
    simp [meetTypes, meetVisit, h1, h2, h3]
  · intro so n c args
    cases so <;> rfl

/-- Witness for `partial_error_behavior` at concrete operands. -/
theorem partial_error_behavior_witness :
    isOverlapping true 1 false false .partialT (.inst .intC []) =
        .error "Unexpectedly encountered partial type" ∧
      meetTypes true 1 (.inst .intC []) .partialT = .error "Internal error" :=
  ⟨partial_error_behavior.1 true 0 false false _ _ rfl rfl (Or.inl rfl),
   partial_error_behavior.2.1 true 0 _ rfl rfl rfl⟩

/-- C6 counterexample: with the prohibition flag set,
`is_overlapping_types(None, T)` for an unconstrained type variable `T` with
upper bound `object` returns `False`, even though the multi-variant
decomposition over the same operands returns `True` (the type variable
could be bound to `None`): the prohibition is applied before the
decomposition step, not after it. -/
theorem none_typevar_order_counterexample :
    isOverlapping true 3 false true .noneT (.typeVar 0 [] (.inst .objectC [])) =
        .ok false ∧
      anyM (fun p => isOverlapping true 2 false true p.1 p.2)
        (pairProd (getPossibleVariants .noneT)
          (getPossibleVariants (.typeVar 0 [] (.inst .objectC [])))) = .ok true :=
  ⟨rfl, rfl⟩

/-- C6 (amended): the `None`/type-variable prohibition is applied before the
multi-variant decomposition step: with the flag set, `None` against an
unconstrained type variable bounded by `object` is `False` in both orders,
although without the flag the decomposition finds the overlap. -/
theorem none_typevar_prohibition_first (n : Nat) (ip : Bool) (tid : Nat) :
    isOverlapping true (n + 1) ip true .noneT
        (.typeVar tid [] (.inst .objectC [])) = .ok false ∧
      isOverlapping true (n + 1) ip true (.typeVar tid [] (.inst .objectC []))
        .noneT = .ok false ∧
      isOverlapping true (n + 2) ip false .noneT
        (.typeVar tid [] (.inst .objectC [])) = .ok true := by
  refine ⟨?_, ?_, ?_⟩ <;> rfl

/-- C10: for two instances neither a subtype of the other whose classes are
related by ancestry, `is_overlapping_types` maps the subordinate instance
into the ancestor's parameter frame and then returns true only if the two
argument lists have equal length and every corresponding pair overlaps; on
a length mismatch it returns `False` rather than raising. -/
theorem overlap_instance_ancestry (so : Bool) (n : Nat) (ip pn : Bool)
    (c d : ClassId) (ca da : List MType)
    (hps1 : isProperSubtype so ip (.inst c ca) (.inst d da) = false)
    (hps2 : isProperSubtype so ip (.inst d da) (.inst c ca) = false)
    (hs1 : isSubtype so ip (.inst c ca) (.inst d da) = false)
    (hs2 : isSubtype so ip (.inst d da) (.inst c ca) = false)
    (hc : c ≠ .tupleC) (hd : d ≠ .tupleC)
    (hbase : hasBase c d = true) :
    isOverlapping so (n + 1) ip pn (.inst c ca) (.inst d da) =
      (if (mapInstanceToSupertype c ca d).length = da.length then
        allM (fun p => isOverlapping so n ip pn p.1 p.2)
          ((mapInstanceToSupertype c ca d).zip da)
       else .ok false) := by
  have htl : isTupleLike (.inst c ca) = false := by
    cases c <;> simp_all [isTupleLike]
  have htr : isTupleLike (.inst d da) = false := by
    cases d <;> simp_all [isTupleLike]
  simp [isOverlapping, overlapCore, hps1, hps2, getPossibleVariants, isNoneTypevarOverlap,
    isNoneTT, isTypeVarT, overlapTypedDicts, isTypedDictT, typedDictMappingPair,
    overlapTuples, htl, htr, isTupleTT, overlapTypeObjects, isTypeTT,
    overlapCallables, isCallableT, overlapLiterals, isLiteralT,
    overlapInstances, isInstT, hs1, hs2, hbase, instCls, instArgs,
    stripNoneFromUnion, isTypeGuardT, isPartialTypeT, isIllegalT, isAnyTT]

/-- Witness for `overlap_instance_ancestry`: `genC[int]` against the stale
`genB[int, str]` maps to `genB[int]`, the argument lists have different
lengths, and the result is `False`. -/
theorem overlap_instance_ancestry_witness :
    isOverlapping true 1 false false (.inst .genC [.inst .intC []])
        (.inst .genB [.inst .intC [], .inst .strC []]) = .ok false := by
  rw [overlap_instance_ancestry true 0 false false .genC .genB [.inst .intC []]
    [.inst .intC [], .inst .strC []] rfl rfl rfl rfl (by decide) (by decide) rfl]
  rfl

/-- C3: for two callables of similar shape (same arity) that are not
equivalent, `meet_types` produces a callable whose argument types are the
positionwise joins of the corresponding argument types and whose return
type is the meet of the return types; if that return type is bottom
(`Uninhabited`), the callable is discarded and the default rule (bottom) is
returned instead. -/
theorem meet_callable_contravariance (so : Bool) (n : Nat)
    (a1 : List MType) (r1 : MType) (f1 : ClassId) (o1 b1 t1 n1 g1 : Bool)
    (a2 : List MType) (r2 : MType) (f2 : ClassId) (o2 b2 t2 n2 g2 : Bool)
    (hsim : a2.length = a1.length)
    (hneq : isEquivalent so (.callable a2 r2 f2 o2 b2 t2 n2 g2)
      (.callable a1 r1 f1 o1 b1 t1 n1 g1) = false) :
    meetTypes so (n + 1) (.callable a1 r1 f1 o1 b1 t1 n1 g1)
        (.callable a2 r2 f2 o2 b2 t2 n2 g2) =
      match meetTypes so n r2 r1 with
      | .error e => .error e
      | .ok ret =>
          if isUninhabitedT ret then .ok (bottomDefault so)
          else .ok (.callable (List.zipWith (joinTypes so) a2 a1) ret
            (if f2 ≠ .functionC then f2 else f1) o2 b2
            (if !((o2 && b2) || (o1 && b1)) then true else t2) false g2) := by
  cases hret : meetTypes so n r2 r1 with
  | error e =>
      simp [meetTypes, meetVisit, isSimilarCallables, hsim, hneq,
        meetSimilarCallables, hret, isErasedT, isAnyTT, isUnionT]
  | ok ret =>
      cases hu : isUninhabitedT ret <;>
        cases hfl : ((o2 && b2) || (o1 && b1)) <;>
          simp [meetTypes, meetVisit, isSimilarCallables, hsim, hneq,
            meetSimilarCallables, hret, setFromTypeType, defaultMeet,
            isUnboundT, hu, hfl, isErasedT, isAnyTT, isUnionT]

/-- Witness for `meet_callable_contravariance`: the parameter type of the
meet of `Callable[[int], object]` and `Callable[[object], object]` is the
join `object` of `int` and `object`, not their meet; and a bottom meet of
the return types discards the callable in favour of bottom. -/
theorem meet_callable_contravariance_witness :
    meetTypes true 2
        (.callable [.inst .intC []] (.inst .objectC []) .functionC
          false false false false false)
        (.callable [.inst .objectC []] (.inst .objectC []) .functionC
          false false false false false) =
      .ok (.callable [.inst .objectC []] (.inst .objectC []) .functionC
        false false true false false) ∧
      meetTypes true 2
          (.callable [.inst .intC []] (.inst .intC []) .functionC
            false false false false false)
          (.callable [.inst .strC []] .noneT .functionC
            false false false false false) =
        .ok .uninhabited := by
  constructor
  · rw [meet_callable_contravariance true 1
      [.inst .intC []] (.inst .objectC []) .functionC false false false false false
      [.inst .objectC []] (.inst .objectC []) .functionC false false false false false
      rfl rfl]
    rfl
  · rw [meet_callable_contravariance true 1
      [.inst .intC []] (.inst .intC []) .functionC false false false false false
      [.inst .strC []] .noneT .functionC false false false false false
      rfl rfl]
    rfl

/-- C4: in the typed-record vs mapping-type overlap rule, the empty-mapping
shape (both `Mapping` arguments bottom) overlaps exactly the typed dicts
with no required keys; otherwise a result of `True` requires, for a record
with required keys, that every required key's value type overlap the
mapping's value type (conjunctive), and, for a record without required
keys, that some non-required key's value type overlap it (existential). -/
theorem td_mapping_rule (f : MType → MType → Except String Bool)
    (items : List (String × MType)) (req : List String) (kt vt : MType) :
    (typedDictMappingOverlap f (.typedDict items req)
        (.inst .dictC [.uninhabited, .uninhabited]) = .ok req.isEmpty) ∧
    ((mteq kt .uninhabited && mteq vt .uninhabited) = false →
      req.isEmpty = false →
      typedDictMappingOverlap f (.typedDict items req) (.inst .dictC [kt, vt]) =
        .ok true →
      ∀ k ∈ req, ∃ v, lookupTD items k = some v ∧ f v vt = .ok true) ∧
    ((mteq kt .uninhabited && mteq vt .uninhabited) = false →
      req.isEmpty = true →
      typedDictMappingOverlap f (.typedDict items req) (.inst .dictC [kt, vt]) =
        .ok true →
      ∃ k ∈ nonRequiredKeys items req, ∃ v, lookupTD items k = some v ∧
        f v vt = .ok true) := by
  have hb1 : hasBase ClassId.dictC ClassId.mappingC = true := rfl
  have hm : mapInstanceToSupertype .dictC [kt, vt] .mappingC = [kt, vt] := rfl
  refine ⟨rfl, ?_, ?_⟩
  · intro hb hreq h
    simp only [typedDictMappingOverlap, hb1, hm, hb, hreq, if_true, if_false,
      Bool.not_false, Bool.false_eq_true, ite_false, ite_true] at h
    cases hk : f kt tdStrType with
    | error e => rw [hk] at h; cases h
    | ok kb =>
        cases kb with
        | false => rw [hk] at h; cases h
        | true =>
            rw [hk] at h
            intro k hk2
            have hone := allM_ok_true_all h k hk2
            cases hl : lookupTD items k with
            | none => rw [hl] at hone; cases hone
            | some v => rw [hl] at hone; exact ⟨v, rfl, hone⟩
  · intro hb hreq h
    simp only [typedDictMappingOverlap, hb1, hm, hb, hreq, if_true, if_false,
      Bool.not_true, Bool.false_eq_true, ite_false, ite_true] at h
    cases hk : f kt tdStrType with
    | error e => rw [hk] at h; cases h
    | ok kb =>
        cases kb with
        | false => rw [hk] at h; cases h
        | true =>
            rw [hk] at h
            obtain ⟨k, hk2, hone⟩ := anyM_ok_true_mem h
            cases hl : lookupTD items k with
            | none => rw [hl] at hone; cases hone
            | some v => rw [hl] at hone; exact ⟨k, hk2, v, hl, hone⟩

/-- Witness for `td_mapping_rule`: a record with a required key does not
overlap the empty-mapping shape, and an overlap verdict against
`dict[str, int]` entails the required key's value overlapping `int`. -/
theorem td_mapping_rule_witness :
    (typedDictMappingOverlap (isOverlapping true 3 false false)
        (.typedDict [("x", .inst .intC [])] ["x"])
        (.inst .dictC [.uninhabited, .uninhabited]) = .ok false) ∧
      (∀ k ∈ ["x"], ∃ v, lookupTD [("x", .inst .intC [])] k = some v ∧
        isOverlapping true 3 false false v (.inst .intC []) = .ok true) :=
  ⟨(td_mapping_rule (isOverlapping true 3 false false)
      [("x", .inst .intC [])] ["x"] .anyT .anyT).1,
   (td_mapping_rule (isOverlapping true 3 false false)
      [("x", .inst .intC [])] ["x"] (.inst .strC []) (.inst .intC [])).2.1
     rfl rfl rfl⟩

/-- C5 counterexample: with the none/type-variable prohibition enabled, the
source's reverse loop (which drops the flag, meet.py line 400) accepts the
pair, while the flag-honoring variant the claim describes rejects it: the
required key `k` of the right record has value `None` against a left value
that is an unconstrained type variable. -/
theorem td_overlap_flags_counterexample :
    areTypedDictsOverlapping (isOverlapping true 6) false true
        [("k", .typeVar 0 [] (.inst .objectC []))] []
        [("k", .noneT)] ["k"] = .ok true ∧
      areTypedDictsOverlappingSpec (isOverlapping true 6) false true
        [("k", .typeVar 0 [] (.inst .objectC []))] []
        [("k", .noneT)] ["k"] = .ok false := ⟨rfl, rfl⟩

/-- C5 (amended): `are_typed_dicts_overlapping` returns `True` exactly when
every required key of the left record exists in both item maps with value
types overlapping under both flags, and every required key of the right
record exists in both item maps with value types overlapping under
`ignore_promotions` but with the none/type-variable prohibition disabled
(the reverse loop always passes `prohibit_none_typevar_overlap=False`). -/
theorem td_overlap_characterization
    (olap : Bool → Bool → MType → MType → Except String Bool)
    (ip pn : Bool) (li ri : List (String × MType)) (lreq rreq : List String)
    (u : Bool)
    (h : areTypedDictsOverlapping olap ip pn li lreq ri rreq = .ok u) :
    u = true ↔
      ((∀ k ∈ lreq, ∃ lv rv, lookupTD li k = some lv ∧ lookupTD ri k = some rv ∧
          olap ip pn lv rv = .ok true) ∧
       (∀ k ∈ rreq, ∃ lv rv, lookupTD li k = some lv ∧ lookupTD ri k = some rv ∧
          olap ip false lv rv = .ok true)) := by
  unfold areTypedDictsOverlapping at h
  cases hA : allM (tdCheckFwd olap ip pn li ri) lreq with
  | error e =>
      rw [hA] at h
      exact absurd h (by simp)
  | ok ab =>
      cases ab with
      | false =>
          rw [hA] at h
          have h2 : (Except.ok false : Except String Bool) = .ok u := h
          cases h2
          constructor
          · intro hu; cases hu
          · intro ⟨h1, _⟩
            obtain ⟨k, hk, hck⟩ := allM_ok_false_mem hA
            obtain ⟨lv, rv, hlv, hrv, ho⟩ := h1 k hk
            unfold tdCheckFwd at hck
            rw [hrv, hlv] at hck
            simp [ho] at hck
      | true =>
          rw [hA] at h
          have h : allM (tdCheckRev olap ip false li ri) rreq = .ok u := h
          constructor
          · intro hu
            subst hu
            constructor
            · intro k hk
              have hck := allM_ok_true_all hA k hk
              unfold tdCheckFwd at hck
              cases hrv : lookupTD ri k with
              | none => rw [hrv] at hck; cases hck
              | some rv =>
                  rw [hrv] at hck
                  cases hlv : lookupTD li k with
                  | none => rw [hlv] at hck; cases hck
                  | some lv => rw [hlv] at hck; exact ⟨lv, rv, rfl, rfl, hck⟩
            · intro k hk
              have hck := allM_ok_true_all h k hk
              unfold tdCheckRev at hck
              cases hlv : lookupTD li k with
              | none => rw [hlv] at hck; cases hck
              | some lv =>
                  rw [hlv] at hck
                  cases hrv : lookupTD ri k with
                  | none => rw [hrv] at hck; cases hck
                  | some rv => rw [hrv] at hck; exact ⟨lv, rv, rfl, rfl, hck⟩
          · intro ⟨_, h2⟩
            cases u with
            | true => rfl
            | false =>
                obtain ⟨k, hk, hck⟩ := allM_ok_false_mem h
                obtain ⟨lv, rv, hlv, hrv, ho⟩ := h2 k hk
                unfold tdCheckRev at hck
                rw [hlv, hrv] at hck
                simp [ho] at hck

/-- Witness for `td_overlap_characterization` at a one-key pair of records
overlapping under a constant-true callback. -/
theorem td_overlap_characterization_witness :
    ((true : Bool) = true ↔
      ((∀ k ∈ ["a"], ∃ lv rv,
          lookupTD [("a", MType.inst .intC [])] k = some lv ∧
          lookupTD [("a", MType.inst .intC [])] k = some rv ∧
          (fun (_ _ : Bool) (_ _ : MType) => (Except.ok true : Except String Bool))
            false false lv rv = .ok true) ∧
       (∀ k ∈ ([] : List String), ∃ lv rv,
          lookupTD [("a", MType.inst .intC [])] k = some lv ∧
          lookupTD [("a", MType.inst .intC [])] k = some rv ∧
          (fun (_ _ : Bool) (_ _ : MType) => (Except.ok true : Except String Bool))
            false false lv rv = .ok true))) :=
  td_overlap_characterization
    (fun _ _ _ _ => (Except.ok true : Except String Bool)) false false
    [("a", MType.inst .intC [])] [("a", MType.inst .intC [])] ["a"] [] true rfl

theorem allM_zip_swap_agree
    {rec : Bool → Bool → MType → MType → Except String Bool}
    (hrec : ∀ ip pn a b x y,
      rec ip pn a b = .ok x → rec ip pn b a = .ok y → x = y)
    (ip pn : Bool) {la ra : List MType} {x y : Bool}
    (h1 : allM (fun p => rec ip pn p.1 p.2) (la.zip ra) = .ok x)
    (h2 : allM (fun p => rec ip pn p.1 p.2) (ra.zip la) = .ok y) : x = y := by
  refine allM_agree ?_ ?_ h1 h2
  · rintro ⟨u, v⟩ hp
    exact ⟨(v, u), mem_zip_swap hp, fun a b hf hg => hrec ip pn u v a b hf hg⟩
  · rintro ⟨v, u⟩ hq
    exact ⟨(u, v), mem_zip_swap hq, fun a b hf hg => hrec ip pn u v a b hf hg⟩

theorem anyM_pairProd_swap_agree
    {rec : Bool → Bool → MType → MType → Except String Bool}
    (hrec : ∀ ip pn a b x y,
      rec ip pn a b = .ok x → rec ip pn b a = .ok y → x = y)
    (ip pn : Bool) {la ra : List MType} {x y : Bool}
    (h1 : anyM (fun p => rec ip pn p.1 p.2) (pairProd la ra) = .ok x)
    (h2 : anyM (fun p => rec ip pn p.1 p.2) (pairProd ra la) = .ok y) : x = y := by
  refine anyM_agree ?_ ?_ h1 h2
  · rintro ⟨u, v⟩ hp
    obtain ⟨hu, hv⟩ := mem_pairProd.mp hp
    exact ⟨(v, u), mem_pairProd.mpr ⟨hv, hu⟩,
      fun a b hf hg => hrec ip pn u v a b hf hg⟩
  · rintro ⟨v, u⟩ hq
    obtain ⟨hv, hu⟩ := mem_pairProd.mp hq
    exact ⟨(u, v), mem_pairProd.mpr ⟨hu, hv⟩,
      fun a b hf hg => hrec ip pn u v a b hf hg⟩

theorem isTupleTT_eq_false_of_instTuple :
    ∀ {t : MType}, isInstTuple t = true → isTupleTT t = false := by
  intro t h
  cases t <;> simp_all [isInstTuple, isTupleTT]

theorem isTupleLike_of_instTuple :
    ∀ {t : MType}, isInstTuple t = true → isTupleLike t = true := by
  intro t h
  cases t with
  | inst c a => cases c <;> simp_all [isInstTuple, isTupleLike]
  | _ => simp_all [isInstTuple, isTupleLike]

theorem isTupleLike_of_tupleTT :
    ∀ {t : MType}, isTupleTT t = true → isTupleLike t = true := by
  intro t h
  cases t <;> simp_all [isTupleTT, isTupleLike]

theorem adjustTuple_none {l : MType} (r : MType) (h : isInstTuple l = false) :
    adjustTuple l r = .ok none := by
  simp [adjustTuple, h]

theorem adjustTuple_some {l : MType} (r : MType) {a0 : MType} {rest : List MType}
    (h : isInstTuple l = true) (ha : instArgs l = a0 :: rest) :
    adjustTuple l r = .ok (some (.tupleT
      (List.replicate (if isTupleTT r then (tupItems r).length else 1) a0) l)) := by
  simp [adjustTuple, h, ha]

theorem adjustTuple_err {l : MType} (r : MType)
    (h : isInstTuple l = true) (ha : instArgs l = []) :
    adjustTuple l r = .error "tuple instance with no type arguments" := by
  simp [adjustTuple, h, ha]

theorem tuplesItemwise_agree
    {rec : Bool → Bool → MType → MType → Except String Bool}
    (hrec : ∀ ip pn a b x y,
      rec ip pn a b = .ok x → rec ip pn b a = .ok y → x = y)
    (ip pn : Bool) {a b : MType} {x y : Bool}
    (h1 : tuplesItemwise rec ip pn a b = .ok x)
    (h2 : tuplesItemwise rec ip pn b a = .ok y) : x = y := by
  unfold tuplesItemwise at h1 h2
  by_cases ht : (isTupleTT a && isTupleTT b) = true
  · rw [if_pos ht] at h1
    rw [if_pos (by rwa [Bool.and_comm])] at h2
    by_cases hlen : (tupItems a).length ≠ (tupItems b).length
    · rw [if_pos hlen] at h1
      rw [if_pos (fun hh => hlen hh.symm)] at h2
      cases h1; cases h2; rfl
    · have he : (tupItems a).length = (tupItems b).length := not_not.mp hlen
      rw [if_neg hlen] at h1
      rw [if_neg (fun hh => hh he.symm)] at h2
      exact allM_zip_swap_agree hrec ip pn h1 h2
  · rw [if_neg ht] at h1
    cases h1

theorem areTuplesOverlapping_agree
    {rec : Bool → Bool → MType → MType → Except String Bool}
    (hrec : ∀ ip pn a b x y,
      rec ip pn a b = .ok x → rec ip pn b a = .ok y → x = y)
    (ip pn : Bool) :
    ∀ {l r : MType} {x y : Bool},
      areTuplesOverlapping rec ip pn l r = .ok x →
      areTuplesOverlapping rec ip pn r l = .ok y → x = y := by
  intro l r x y h1 h2
  unfold areTuplesOverlapping at h1 h2
  by_cases hl : isInstTuple l = true
  · cases hal : instArgs l with
    | nil =>
        rw [adjustTuple_err r hl hal] at h1
        cases h1
    | cons a0 arest =>
        rw [adjustTuple_some r hl hal] at h1
        have h1' : areTuplesStep2 rec ip pn
            (.tupleT (List.replicate
              (if isTupleTT r then (tupItems r).length else 1) a0) l) r = .ok x := h1
        by_cases hr : isInstTuple r = true
        · have hrT : isTupleTT r = false := isTupleTT_eq_false_of_instTuple hr
          rw [hrT] at h1'
          simp only [Bool.false_eq_true, if_false] at h1'
          cases har : instArgs r with
          | nil =>
              unfold areTuplesStep2 at h1'
              rw [adjustTuple_err _ hr har] at h1'
              cases h1'
          | cons b0 brest =>
              unfold areTuplesStep2 at h1'
              rw [adjustTuple_some _ hr har] at h1'
              rw [adjustTuple_some l hr har] at h2
              have h2' : areTuplesStep2 rec ip pn
                  (.tupleT (List.replicate
                    (if isTupleTT l then (tupItems l).length else 1) b0) r) l =
                    .ok y := h2
              have hlT : isTupleTT l = false := isTupleTT_eq_false_of_instTuple hl
              rw [hlT] at h2'
              simp only [Bool.false_eq_true, if_false] at h2'
              unfold areTuplesStep2 at h2'
              rw [adjustTuple_some _ hl hal] at h2'
              exact tuplesItemwise_agree hrec ip pn h1' h2'
        · have hr' : isInstTuple r = false := by simpa using hr
          unfold areTuplesStep2 at h1'
          rw [adjustTuple_none _ hr'] at h1'
          rw [adjustTuple_none l hr'] at h2
          have h2' : areTuplesStep2 rec ip pn r l = .ok y := h2
          unfold areTuplesStep2 at h2'
          rw [adjustTuple_some _ hl hal] at h2'
          exact tuplesItemwise_agree hrec ip pn h1' h2'
  · have hl' : isInstTuple l = false := by simpa using hl
    rw [adjustTuple_none r hl'] at h1
    have h1' : areTuplesStep2 rec ip pn l r = .ok x := h1
    unfold areTuplesStep2 at h1'
    by_cases hr : isInstTuple r = true
    · cases har : instArgs r with
      | nil =>
          rw [adjustTuple_err _ hr har] at h1'
          cases h1'
      | cons b0 brest =>
          rw [adjustTuple_some _ hr har] at h1'
          rw [adjustTuple_some l hr har] at h2
          have h2' : areTuplesStep2 rec ip pn
              (.tupleT (List.replicate
                (if isTupleTT l then (tupItems l).length else 1) b0) r) l =
                .ok y := h2
          unfold areTuplesStep2 at h2'
          rw [adjustTuple_none _ hl'] at h2'
          exact tuplesItemwise_agree hrec ip pn h1' h2'
    · have hr' : isInstTuple r = false := by simpa using hr
      rw [adjustTuple_none _ hr'] at h1'
      rw [adjustTuple_none l hr'] at h2
      have h2' : areTuplesStep2 rec ip pn r l = .ok y := h2
      unfold areTuplesStep2 at h2'
      rw [adjustTuple_none _ hl'] at h2'
      exact tuplesItemwise_agree hrec ip pn h1' h2'

theorem allM_pointwise_agree {α : Type} {f g : α → Except String Bool}
    {L : List α}
    (hPt : ∀ k ∈ L, ∀ x y, f k = .ok x → g k = .ok y → x = y)
    {x y : Bool} (ha : allM f L = .ok x) (hb : allM g L = .ok y) : x = y :=
  allM_agree (fun a ha2 => ⟨a, ha2, hPt a ha2⟩)
    (fun b hb2 => ⟨b, hb2, hPt b hb2⟩) ha hb

theorem tdCheck_agree
    {rec : Bool → Bool → MType → MType → Except String Bool}
    (hrec : ∀ ip pn a b x y,
      rec ip pn a b = .ok x → rec ip pn b a = .ok y → x = y)
    (ip : Bool) (li ri : List (String × MType)) (k : String) {x y : Bool}
    (h1 : tdCheckFwd rec ip false li ri k = .ok x)
    (h2 : tdCheckRev rec ip false ri li k = .ok y) : x = y := by
  unfold tdCheckFwd at h1
  unfold tdCheckRev at h2
  cases hrv : lookupTD ri k with
  | none => rw [hrv] at h1 h2; cases h1; cases h2; rfl
  | some rv =>
      rw [hrv] at h1 h2
      cases hlv : lookupTD li k with
      | none => rw [hlv] at h1; cases h1
      | some lv =>
          rw [hlv] at h1 h2
          exact hrec ip false lv rv x y h1 h2

theorem areTypedDictsOverlapping_agree
    {rec : Bool → Bool → MType → MType → Except String Bool}
    (hrec : ∀ ip pn a b x y,
      rec ip pn a b = .ok x → rec ip pn b a = .ok y → x = y)
    (ip : Bool)
    {li ri : List (String × MType)} {lreq rreq : List String} {x y : Bool}
    (h1 : areTypedDictsOverlapping rec ip false li lreq ri rreq = .ok x)
    (h2 : areTypedDictsOverlapping rec ip false ri rreq li lreq = .ok y) :
    x = y := by
  have P1 : ∀ k ∈ lreq, ∀ a b, tdCheckFwd rec ip false li ri k = .ok a →
      tdCheckRev rec ip false ri li k = .ok b → a = b :=
    fun k _ a b hf hg => tdCheck_agree hrec ip li ri k hf hg
  have P2 : ∀ k ∈ rreq, ∀ a b, tdCheckRev rec ip false li ri k = .ok a →
      tdCheckFwd rec ip false ri li k = .ok b → a = b :=
    fun k _ a b hf hg => (tdCheck_agree hrec ip ri li k hg hf).symm
  unfold areTypedDictsOverlapping at h1 h2
  cases hF1 : allM (tdCheckFwd rec ip false li ri) lreq with
  | error e => rw [hF1] at h1; cases h1
  | ok f1 =>
      rw [hF1] at h1
      cases hG1 : allM (tdCheckFwd rec ip false ri li) rreq with
      | error e => rw [hG1] at h2; cases h2
      | ok g1 =>
          rw [hG1] at h2
          cases f1 with
          | false =>
              cases h1
              cases g1 with
              | false => cases h2; rfl
              | true =>
                  have h2' : allM (tdCheckRev rec ip false ri li) lreq = .ok y := h2
                  exact allM_pointwise_agree P1 hF1 h2'
          | true =>
              have h1' : allM (tdCheckRev rec ip false li ri) rreq = .ok x := h1
              cases g1 with
              | false =>
                  cases h2
                  exact allM_pointwise_agree P2 h1' hG1
              | true =>
                  have h2' : allM (tdCheckRev rec ip false ri li) lreq = .ok y := h2
                  have hx : x = true := allM_pointwise_agree P2 h1' hG1
                  have hy : true = y := allM_pointwise_agree P1 hF1 h2'
                  rw [hx, ← hy]

theorem typedDictMappingPair_comm (l r : MType) :
    typedDictMappingPair l r = typedDictMappingPair r l := by
  cases l <;> cases r <;> rfl

theorem typedDictMappingOverlap_comm (f : MType → MType → Except String Bool)
    (l r : MType) :
    typedDictMappingOverlap f l r = typedDictMappingOverlap f r l := by
  cases l <;> cases r <;> rfl

theorem overlapInstances_agree
    {rec : Bool → Bool → MType → MType → Except String Bool}
    (hrec : ∀ ip pn a b x y,
      rec ip pn a b = .ok x → rec ip pn b a = .ok y → x = y)
    (so ip pn : Bool) :
    ∀ {l r : MType} {x y : Bool},
      overlapInstances rec so ip pn l r = .ok x →
      overlapInstances rec so ip pn r l = .ok y → x = y := by
  intro l r x y h1 h2
  unfold overlapInstances at h1 h2
  by_cases hio : (isInstT l && isInstT r) = true
  · rw [if_pos hio] at h1
    rw [if_pos (by rwa [Bool.and_comm])] at h2
    by_cases hsub : (isSubtype so ip l r || isSubtype so ip r l) = true
    · rw [if_pos hsub] at h1
      rw [if_pos (by rwa [Bool.or_comm])] at h2
      cases h1; cases h2; rfl
    · rw [if_neg hsub] at h1
      rw [if_neg (by rw [Bool.or_comm]; exact hsub)] at h2
      by_cases hcd : hasBase (instCls l) (instCls r) = true
      · by_cases hdc : hasBase (instCls r) (instCls l) = true
        · have hEq : instCls l = instCls r := hasBase_antisymm _ _ hcd hdc
          rw [if_pos hcd] at h1
          rw [if_pos hdc] at h2
          rw [hEq, mapInstanceToSupertype_self] at h1
          rw [← hEq, mapInstanceToSupertype_self] at h2
          by_cases hlen : (instArgs l).length = (instArgs r).length
          · rw [if_pos hlen] at h1
            rw [if_pos hlen.symm] at h2
            exact allM_zip_swap_agree hrec ip pn h1 h2
          · rw [if_neg hlen] at h1
            rw [if_neg (fun hh => hlen hh.symm)] at h2
            cases h1; cases h2; rfl
        · rw [if_pos hcd] at h1
          rw [if_neg hdc, if_pos hcd] at h2
          by_cases hlen : (mapInstanceToSupertype (instCls l) (instArgs l)
              (instCls r)).length = (instArgs r).length
          · rw [if_pos hlen] at h1
            rw [if_pos hlen.symm] at h2
            exact allM_zip_swap_agree hrec ip pn h1 h2
          · rw [if_neg hlen] at h1
            rw [if_neg (fun hh => hlen hh.symm)] at h2
            cases h1; cases h2; rfl
      · by_cases hdc : hasBase (instCls r) (instCls l) = true
        · rw [if_neg hcd, if_pos hdc] at h1
          rw [if_pos hdc] at h2
          by_cases hlen : (instArgs l).length =
              (mapInstanceToSupertype (instCls r) (instArgs r) (instCls l)).length
          · rw [if_pos hlen] at h1
            rw [if_pos hlen.symm] at h2
            exact allM_zip_swap_agree hrec ip pn h1 h2
          · rw [if_neg hlen] at h1
            rw [if_neg (fun hh => hlen hh.symm)] at h2
            cases h1; cases h2; rfl
        · rw [if_neg hcd, if_neg hdc] at h1
          rw [if_neg hdc, if_neg hcd] at h2
          cases h1; cases h2; rfl
  · rw [if_neg hio] at h1
    rw [if_neg (by rw [Bool.and_comm]; exact hio)] at h2
    by_cases hk : kindTag l = kindTag r
    · rw [if_pos hk] at h1; cases h1
    · rw [if_neg hk] at h1
      rw [if_neg (fun hh => hk hh.symm)] at h2
      cases h1; cases h2; rfl

theorem isCallableCompatible_agree
    {rec : Bool → Bool → MType → MType → Except String Bool}
    (hrec : ∀ ip pn a b x y,
      rec ip pn a b = .ok x → rec ip pn b a = .ok y → x = y)
    (ip pn : Bool) {a1 a2 : List MType} {r1 r2 : MType} {x y : Bool}
    (h1 : isCallableCompatible (rec ip pn) a1 r1 a2 r2 = .ok x)
    (h2 : isCallableCompatible (rec ip pn) a2 r2 a1 r1 = .ok y) : x = y := by
  unfold isCallableCompatible at h1 h2
  by_cases hlen : a1.length ≠ a2.length
  · rw [if_pos hlen] at h1
    rw [if_pos (fun hh => hlen hh.symm)] at h2
    cases h1; cases h2; rfl
  · have he : a1.length = a2.length := not_not.mp hlen
    rw [if_neg hlen] at h1
    rw [if_neg (fun hh => hh he.symm)] at h2
    refine allM_agree ?_ ?_ h1 h2
    · rintro ⟨u, v⟩ hp
      rcases List.mem_append.mp hp with hz | hs
      · exact ⟨(v, u), List.mem_append.mpr (Or.inl (mem_zip_swap hz)),
          fun a b hf hg => hrec ip pn u v a b hf hg⟩
      · rw [List.mem_singleton] at hs
        cases hs
        exact ⟨(r2, r1), List.mem_append.mpr (Or.inr (List.mem_singleton.mpr rfl)),
          fun a b hf hg => hrec ip pn r1 r2 a b hf hg⟩
    · rintro ⟨v, u⟩ hq
      rcases List.mem_append.mp hq with hz | hs
      · exact ⟨(u, v), List.mem_append.mpr (Or.inl (mem_zip_swap hz)),
          fun a b hf hg => hrec ip pn u v a b hf hg⟩
      · rw [List.mem_singleton] at hs
        cases hs
        exact ⟨(r1, r2), List.mem_append.mpr (Or.inr (List.mem_singleton.mpr rfl)),
          fun a b hf hg => hrec ip pn r1 r2 a b hf hg⟩

theorem overlapLiterals_agree
    {rec : Bool → Bool → MType → MType → Except String Bool}
    (hrec : ∀ ip pn a b x y,
      rec ip pn a b = .ok x → rec ip pn b a = .ok y → x = y)
    (so ip pn : Bool) :
    ∀ {l r : MType} {x y : Bool},
      overlapLiterals rec so ip pn l r = .ok x →
      overlapLiterals rec so ip pn r l = .ok y → x = y := by
  intro l r x y h1 h2
  unfold overlapLiterals at h1 h2
  by_cases hll : isLiteralT l = true
  · by_cases hlr : isLiteralT r = true
    · simp only [hll, hlr, Bool.and_self, if_true, ite_true] at h1 h2
      by_cases hv : litVal l = litVal r
      · rw [if_pos hv] at h1
        rw [if_pos hv.symm] at h2
        exact overlapInstances_agree hrec so ip pn h1 h2
      · rw [if_neg hv] at h1
        rw [if_neg (fun hh => hv hh.symm)] at h2
        cases h1; cases h2; rfl
    · have hlr' : isLiteralT r = false := by simpa using hlr
      simp only [hll, hlr', Bool.and_false, Bool.false_and, Bool.true_and,
        Bool.and_true, if_true, if_false, ite_true, ite_false,
        Bool.false_eq_true] at h1 h2
      exact overlapInstances_agree hrec so ip pn h1 h2
  · have hll' : isLiteralT l = false := by simpa using hll
    by_cases hlr : isLiteralT r = true
    · simp only [hll', hlr, Bool.and_false, Bool.false_and, Bool.true_and,
        Bool.and_true, if_true, if_false, ite_true, ite_false,
        Bool.false_eq_true] at h1 h2
      exact overlapInstances_agree hrec so ip pn h1 h2
    · have hlr' : isLiteralT r = false := by simpa using hlr
      simp only [hll', hlr', Bool.and_false, Bool.false_and, if_false,
        ite_false, Bool.false_eq_true] at h1 h2
      exact overlapInstances_agree hrec so ip pn h1 h2

theorem overlapCallables_agree
    {rec : Bool → Bool → MType → MType → Except String Bool}
    (hrec : ∀ ip pn a b x y,
      rec ip pn a b = .ok x → rec ip pn b a = .ok y → x = y)
    (so ip pn : Bool) :
    ∀ {l r : MType} {x y : Bool},
      overlapCallables rec so ip pn l r = .ok x →
      overlapCallables rec so ip pn r l = .ok y → x = y := by
  intro l r x y h1 h2
  unfold overlapCallables at h1 h2
  by_cases hcl : isCallableT l = true
  · by_cases hcr : isCallableT r = true
    · simp only [hcl, hcr, Bool.and_self, if_true, ite_true] at h1 h2
      exact isCallableCompatible_agree hrec ip pn h1 h2
    · have hcr' : isCallableT r = false := by simpa using hcr
      simp only [hcl, hcr', Bool.and_false, Bool.false_and, Bool.true_and,
        Bool.and_true, if_true, if_false, ite_true, ite_false,
        Bool.false_eq_true] at h1 h2
      exact overlapLiterals_agree hrec so ip pn h1 h2
  · have hcl' : isCallableT l = false := by simpa using hcl
    by_cases hcr : isCallableT r = true
    · simp only [hcl', hcr, Bool.and_false, Bool.false_and, Bool.true_and,
        Bool.and_true, if_true, if_false, ite_true, ite_false,
        Bool.false_eq_true] at h1 h2
      exact overlapLiterals_agree hrec so ip pn h1 h2
    · have hcr' : isCallableT r = false := by simpa using hcr
      simp only [hcl', hcr', Bool.and_false, Bool.false_and, if_false,
        ite_false, Bool.false_eq_true] at h1 h2
      exact overlapLiterals_agree hrec so ip pn h1 h2

theorem overlapTypeObjects_agree
    {rec : Bool → Bool → MType → MType → Except String Bool}
    (hrec : ∀ ip pn a b x y,
      rec ip pn a b = .ok x → rec ip pn b a = .ok y → x = y)
    (so ip pn : Bool) :
    ∀ {l r : MType} {x y : Bool},
      overlapTypeObjects rec so ip pn l r = .ok x →
      overlapTypeObjects rec so ip pn r l = .ok y → x = y := by
  intro l r x y h1 h2
  unfold overlapTypeObjects at h1 h2
  by_cases htt : (isTypeTT l && isTypeTT r) = true
  · rw [if_pos htt] at h1
    rw [if_pos (by rwa [Bool.and_comm])] at h2
    exact hrec ip pn _ _ x y h1 h2
  · rw [if_neg htt] at h1
    rw [if_neg (by rw [Bool.and_comm]; exact htt)] at h2
    by_cases hor : (isTypeTT l || isTypeTT r) = true
    · rw [if_pos hor] at h1
      rw [if_pos (by rwa [Bool.or_comm])] at h2
      exact orE_both_ok h1 h2
    · rw [if_neg hor] at h1
      rw [if_neg (by rw [Bool.or_comm]; exact hor)] at h2
      exact overlapCallables_agree hrec so ip pn h1 h2

theorem overlapTuples_agree
    {rec : Bool → Bool → MType → MType → Except String Bool}
    (hrec : ∀ ip pn a b x y,
      rec ip pn a b = .ok x → rec ip pn b a = .ok y → x = y)
    (so ip pn : Bool) :
    ∀ {l r : MType} {x y : Bool},
      overlapTuples rec so ip pn l r = .ok x →
      overlapTuples rec so ip pn r l = .ok y → x = y := by
  intro l r x y h1 h2
  unfold overlapTuples at h1 h2
  by_cases hlike : (isTupleLike l && isTupleLike r) = true
  · rw [if_pos hlike] at h1
    rw [if_pos (by rwa [Bool.and_comm])] at h2
    exact areTuplesOverlapping_agree hrec ip false h1 h2
  · rw [if_neg hlike] at h1
    rw [if_neg (by rw [Bool.and_comm]; exact hlike)] at h2
    by_cases htl : isTupleTT l = true
    · have hrn : isTupleTT r = false := by
        by_contra hc
        have hc' : isTupleTT r = true := by simpa using hc
        exact hlike (by
          rw [isTupleLike_of_tupleTT htl, isTupleLike_of_tupleTT hc']; rfl)
      simp only [htl, hrn, if_true, if_false, ite_true, ite_false,
        Bool.false_eq_true] at h1 h2
      exact overlapTypeObjects_agree hrec so ip pn h1 h2
    · have htl' : isTupleTT l = false := by simpa using htl
      by_cases htr : isTupleTT r = true
      · simp only [htl', htr, if_true, if_false, ite_true, ite_false,
          Bool.false_eq_true] at h1 h2
        exact overlapTypeObjects_agree hrec so ip pn h1 h2
      · have htr' : isTupleTT r = false := by simpa using htr
        simp only [htl', htr', if_false, ite_false, Bool.false_eq_true] at h1 h2
        exact overlapTypeObjects_agree hrec so ip pn h1 h2

theorem overlapTypedDicts_agree
    {rec : Bool → Bool → MType → MType → Except String Bool}
    (hrec : ∀ ip pn a b x y,
      rec ip pn a b = .ok x → rec ip pn b a = .ok y → x = y)
    (so ip pn : Bool) :
    ∀ {l r : MType} {x y : Bool},
      overlapTypedDicts rec so ip pn l r = .ok x →
      overlapTypedDicts rec so ip pn r l = .ok y → x = y := by
  intro l r x y h1 h2
  unfold overlapTypedDicts at h1 h2
  by_cases htd : (isTypedDictT l && isTypedDictT r) = true
  · rw [if_pos htd] at h1
    rw [if_pos (by rwa [Bool.and_comm])] at h2
    exact areTypedDictsOverlapping_agree hrec ip h1 h2
  · rw [if_neg htd] at h1
    rw [if_neg (by rw [Bool.and_comm]; exact htd)] at h2
    by_cases hpair : typedDictMappingPair l r = true
    · rw [if_pos hpair] at h1
      rw [if_pos (by rwa [typedDictMappingPair_comm])] at h2
      rw [typedDictMappingOverlap_comm] at h2
      have := h1.symm.trans h2
      cases this; rfl
    · rw [if_neg hpair] at h1
      rw [if_neg (fun hh => hpair (by rwa [typedDictMappingPair_comm]))] at h2
      by_cases hdl : isTypedDictT l = true
      · have hdr : isTypedDictT r = false := by
          by_contra hc
          have hc' : isTypedDictT r = true := by simpa using hc
          exact htd (by rw [hdl, hc']; rfl)
        simp only [hdl, hdr, if_true, if_false, ite_true, ite_false,
          Bool.false_eq_true] at h1 h2
        exact overlapTuples_agree hrec so ip pn h1 h2
      · have hdl' : isTypedDictT l = false := by simpa using hdl
        by_cases hdr : isTypedDictT r = true
        · simp only [hdl', hdr, if_true, if_false, ite_true, ite_false,
            Bool.false_eq_true] at h1 h2
          exact overlapTuples_agree hrec so ip pn h1 h2
        · have hdr' : isTypedDictT r = false := by simpa using hdr
          simp only [hdl', hdr', if_false, ite_false, Bool.false_eq_true] at h1 h2
          exact overlapTuples_agree hrec so ip pn h1 h2

theorem overlapCore_agree
    {rec : Bool → Bool → MType → MType → Except String Bool}
    (hrec : ∀ ip pn a b x y,
      rec ip pn a b = .ok x → rec ip pn b a = .ok y → x = y)
    (so ip pn : Bool) :
    ∀ {l r : MType} {x y : Bool},
      overlapCore rec so ip pn l r = .ok x →
      overlapCore rec so ip pn r l = .ok y → x = y := by
  intro l r x y h1 h2
  unfold overlapCore at h1 h2
  by_cases h01 : (isAnyTT l || isAnyTT r) = true
  · rw [if_pos h01] at h1
    rw [if_pos (by rwa [Bool.or_comm])] at h2
    cases h1; cases h2; rfl
  · rw [if_neg h01] at h1
    rw [if_neg (by rw [Bool.or_comm]; exact h01)] at h2
    by_cases h02 : (isProperSubtype so ip l r || isProperSubtype so ip r l) = true
    · rw [if_pos h02] at h1
      rw [if_pos (by rwa [Bool.or_comm])] at h2
      cases h1; cases h2; rfl
    · rw [if_neg h02] at h1
      rw [if_neg (by rw [Bool.or_comm]; exact h02)] at h2
      by_cases h03 : (pn && (isNoneTypevarOverlap l r || isNoneTypevarOverlap r l)) = true
      · rw [if_pos h03] at h1
        rw [if_pos (by rw [Bool.or_comm] at h03; exact h03)] at h2
        cases h1; cases h2; rfl
      · rw [if_neg h03] at h1
        rw [if_neg (fun hh => h03 (by rwa [Bool.or_comm] at hh))] at h2
        by_cases h04 : ((getPossibleVariants l).length > 1 ||
            (getPossibleVariants r).length > 1 ||
            isTypeVarT l || isTypeVarT r) = true
        · have h04' : ((getPossibleVariants r).length > 1 ||
              (getPossibleVariants l).length > 1 ||
              isTypeVarT r || isTypeVarT l) = true := by
            simp only [Bool.or_eq_true] at h04 ⊢
            tauto
          rw [if_pos h04] at h1
          rw [if_pos h04'] at h2
          exact anyM_pairProd_swap_agree hrec ip pn h1 h2
        · have h04' : ¬(((getPossibleVariants r).length > 1 ||
              (getPossibleVariants l).length > 1 ||
              isTypeVarT r || isTypeVarT l) = true) := by
            intro hh
            apply h04
            simp only [Bool.or_eq_true] at hh ⊢
            tauto
          rw [if_neg h04] at h1
          rw [if_neg h04'] at h2
          have hbne : (isNoneTT l != isNoneTT r) = (isNoneTT r != isNoneTT l) := by
            cases isNoneTT l <;> cases isNoneTT r <;> rfl
          by_cases h05 : (so && (isNoneTT l != isNoneTT r)) = true
          · rw [if_pos h05] at h1
            rw [if_pos (by rwa [hbne] at h05)] at h2
            cases h1; cases h2; rfl
          · rw [if_neg h05] at h1
            rw [if_neg (fun hh => h05 (by rwa [← hbne] at hh))] at h2
            exact overlapTypedDicts_agree hrec so ip pn h1 h2

/-- C1: for every pair of types and every fixed setting of the
`ignore_promotions` and `prohibit_none_typevar_overlap` flags,
`is_overlapping_types(a, b)` returns the same boolean as
`is_overlapping_types(b, a)` whenever both calls return a boolean (in the
embedding a Python exception is an `Except.error`, which returns none). -/
theorem overlap_symmetric (so : Bool) :
    ∀ (n : Nat) (ip pn : Bool) (a b : MType) (x y : Bool),
      isOverlapping so n ip pn a b = .ok x →
      isOverlapping so n ip pn b a = .ok y → x = y := by
  intro n
  induction n with
  | zero =>
      intro ip pn a b x y h1 _
      simp [isOverlapping] at h1
  | succ n ih =>
      intro ip pn a b x y h1 h2
      unfold isOverlapping at h1 h2
      by_cases hg : (isTypeGuardT a || isTypeGuardT b) = true
      · rw [if_pos hg] at h1
        rw [if_pos (by rwa [Bool.or_comm])] at h2
        cases h1; cases h2; rfl
      · rw [if_neg hg] at h1
        rw [if_neg (by rw [Bool.or_comm]; exact hg)] at h2
        by_cases hpt : (isPartialTypeT a || isPartialTypeT b) = true
        · rw [if_pos hpt] at h1
          cases h1
        · rw [if_neg hpt] at h1
          rw [if_neg (by rw [Bool.or_comm]; exact hpt)] at h2
          by_cases hil : (isIllegalT a || isIllegalT b) = true
          · rw [if_pos hil] at h1
            rw [if_pos (by rwa [Bool.or_comm])] at h2
            cases h1; cases h2; rfl
          · rw [if_neg hil] at h1
            rw [if_neg (by rw [Bool.or_comm]; exact hil)] at h2
            exact overlapCore_agree
              (fun ip' pn' a' b' x' y' => ih ip' pn' a' b' x' y')
              so ip pn h1 h2

/-- Witness for `overlap_symmetric` at `int` against `str`. -/
theorem overlap_symmetric_witness :
    isOverlapping true 1 false false (.inst .intC []) (.inst .strC []) =
        .ok false ∧
      isOverlapping true 1 false false (.inst .strC []) (.inst .intC []) =
        .ok false ∧
      (false : Bool) = false :=
  ⟨rfl, rfl,
   overlap_symmetric true 1 false false (.inst .intC []) (.inst .strC [])
     false false rfl rfl⟩
